import Mathlib

/-!
Verification development for the bicep-deploy action handler
(`src/handler.ts`).  The handler dispatches a configured operation
(create / validate / whatIf for deployments, create / validate / delete
for deployment stacks) to one scope-specific remote client call, builds
the request bodies, validates the template's declared scope against the
configured scope, projects returned outputs to the action output
channel, and translates remote errors.

The embedding below models the handler's control flow as a writer over
an effect trace (remote invocations, log lines, output writes, failure
marks) together with an `Except` for thrown errors.  Remote clients are
modelled by an environment mapping each remote call to its outcome.
-/

deriving instance DecidableEq for Except

namespace BicepDeploy

/-! ### Scope model (from `src/config.ts`, modelled from the spec:
the config module is not part of the sources; its shapes follow the
spec's data model: four scope variants for deployments, three
tenant-less variants for stacks, and the `ScopeType` string values used
by `handler.ts` (`tenant`, `managementGroup`, `subscription`,
`resourceGroup`). -/

inductive ScopeType where
  | tenant
  | managementGroup
  | subscription
  | resourceGroup
  deriving DecidableEq, Repr

/-- The string value of a `ScopeType` member, as compared and
interpolated by `handler.ts`. -/
def ScopeType.toJs : ScopeType → String
  | ScopeType.tenant => "tenant"
  | ScopeType.managementGroup => "managementGroup"
  | ScopeType.subscription => "subscription"
  | ScopeType.resourceGroup => "resourceGroup"

/-- Modelled from the spec: scope variants for deployments, each with
exactly the fields needed to address the remote API at that scope. -/
inductive DeploymentsScope where
  | tenant (tenantId : String)
  | managementGroup (tenantId managementGroup : String)
  | subscription (subscriptionId tenantId : String)
  | resourceGroup (subscriptionId tenantId resourceGroup : String)
  deriving DecidableEq, Repr

def DeploymentsScope.type : DeploymentsScope → ScopeType
  | DeploymentsScope.tenant _ => ScopeType.tenant
  | DeploymentsScope.managementGroup _ _ => ScopeType.managementGroup
  | DeploymentsScope.subscription _ _ => ScopeType.subscription
  | DeploymentsScope.resourceGroup _ _ _ => ScopeType.resourceGroup

/-- Modelled from the spec: deployment stacks support only the three
tenant-less scopes (resourceGroup, subscription, managementGroup). -/
inductive StackScope where
  | managementGroup (tenantId managementGroup : String)
  | subscription (subscriptionId tenantId : String)
  | resourceGroup (subscriptionId tenantId resourceGroup : String)
  deriving DecidableEq, Repr

def StackScope.type : StackScope → ScopeType
  | StackScope.managementGroup _ _ => ScopeType.managementGroup
  | StackScope.subscription _ _ => ScopeType.subscription
  | StackScope.resourceGroup _ _ _ => ScopeType.resourceGroup

/-! ### Parsed files (from `src/helpers/file.ts`, shapes per the spec) -/

/-- `templateContents.metadata._generator` as read by `getScope`. -/
structure TemplateGenerator where
  name : Option String
  deriving DecidableEq, Repr

structure TemplateMetadata where
  _generator : Option TemplateGenerator
  deriving DecidableEq, Repr

/-- A parsed template document.  `getScope` reads its `$schema` value
(`schema`) and `metadata._generator.name`; the rest of the document is
carried opaquely as `body`. -/
structure Template where
  schema : Option String
  metadata : Option TemplateMetadata
  body : String
  deriving DecidableEq, Repr

/-- The `{}` fallback used by `getScope` for `files.templateContents ?? {}`. -/
def emptyTemplate : Template :=
  { schema := none, metadata := none, body := "" }

/-- `ParsedFiles` as produced by the file-parsing collaborator:
template contents, optional template-spec id, and the parameter file
contents (an object carrying a `parameters` key).  Parameter values are
carried opaquely as strings. -/
structure ParsedFiles where
  templateContents : Option Template
  templateSpecId : Option String
  parametersContents : List (String × String)
  deriving DecidableEq, Repr

/-- JS object property lookup (`obj["key"]`), `none` for a missing key. -/
def jsLookup (m : List (String × String)) (k : String) : Option String :=
  (m.find? (fun p => p.1 == k)).map (fun p => p.2)

/-! ### Action configuration (modelled from the spec: the config module
is not part of the sources; fields follow the spec's `ActionConfig`
description and their use in `handler.ts`). -/

inductive DeploymentOperation where
  | create
  | validate
  | whatIf
  deriving DecidableEq, Repr

inductive StackOperation where
  | create
  | validate
  | delete
  deriving DecidableEq, Repr

structure ActionOnUnmanage where
  resources : String
  resourceGroups : Option String
  managementGroups : Option String
  deriving DecidableEq, Repr

/-- Modelled from the spec: deny-settings are passed through verbatim,
so a single opaque field suffices. -/
structure DenySettings where
  mode : String
  deriving DecidableEq, Repr

structure DeploymentsConfig where
  operation : DeploymentOperation
  name : Option String
  scope : DeploymentsScope
  location : Option String
  tags : List (String × String)
  maskedOutputs : Option (List String)
  deriving DecidableEq, Repr

structure DeploymentStackConfig where
  operation : StackOperation
  name : Option String
  scope : StackScope
  location : Option String
  tags : List (String × String)
  maskedOutputs : Option (List String)
  description : Option String
  actionOnUnManage : ActionOnUnmanage
  denySettings : DenySettings
  bypassStackOutOfSyncError : Option Bool
  deriving DecidableEq, Repr

inductive ActionConfig where
  | deployment (c : DeploymentsConfig)
  | deploymentStack (c : DeploymentStackConfig)
  deriving DecidableEq, Repr

def ActionConfig.location : ActionConfig → Option String
  | ActionConfig.deployment c => c.location
  | ActionConfig.deploymentStack c => c.location

def ActionConfig.maskedOutputs : ActionConfig → Option (List String)
  | ActionConfig.deployment c => c.maskedOutputs
  | ActionConfig.deploymentStack c => c.maskedOutputs

/-- `config.scope.type` as read by `validateFileScope`. -/
def ActionConfig.scopeType : ActionConfig → ScopeType
  | ActionConfig.deployment c => c.scope.type
  | ActionConfig.deploymentStack c => c.scope.type

/-- Modelled from the spec: a configuration that passed the upstream
input validation carries a location whenever its scope is not
`resourceGroup` (the spec's data model marks `location` as required
only for non-resource-group scopes). -/
def ActionConfig.hasRequiredLocation (c : ActionConfig) : Bool :=
  c.scopeType == ScopeType.resourceGroup || c.location.isSome

def defaultName : String := "azure-bicep-deploy"

/-! ### Request bodies (`getDeployment` / `getStack` in `handler.ts`) -/

structure TemplateLink where
  id : String
  deriving DecidableEq, Repr

structure ExpressionEvaluationOptions where
  scope : String
  deriving DecidableEq, Repr

structure DeploymentProperties where
  mode : String
  template : Option Template
  templateLink : Option TemplateLink
  parameters : Option String
  expressionEvaluationOptions : ExpressionEvaluationOptions
  deriving DecidableEq, Repr

structure Deployment where
  location : Option String
  properties : DeploymentProperties
  tags : List (String × String)
  deriving DecidableEq, Repr

/-- `getDeployment` from `handler.ts`: builds the deployment request
body from the configuration and parsed files. -/
def getDeployment (config : DeploymentsConfig) (files : ParsedFiles) :
    Deployment :=
  { location := config.location
    properties :=
      { mode := "Incremental"
        template := files.templateContents
        templateLink := files.templateSpecId.map (fun i => { id := i })
        parameters := jsLookup files.parametersContents "parameters"
        expressionEvaluationOptions := { scope := "inner" } }
    tags := config.tags }

structure DeploymentStackProperties where
  template : Option Template
  templateLink : Option TemplateLink
  parameters : Option String
  description : Option String
  actionOnUnmanage : ActionOnUnmanage
  denySettings : DenySettings
  bypassStackOutOfSyncError : Option Bool
  deriving DecidableEq, Repr

structure DeploymentStack where
  location : Option String
  properties : DeploymentStackProperties
  tags : List (String × String)
  deriving DecidableEq, Repr

/-- `getStack` from `handler.ts`: builds the deployment-stack request
body.  It sets no top-level location; call sites for subscription and
management-group scope spread one in. -/
def getStack (config : DeploymentStackConfig) (files : ParsedFiles) :
    DeploymentStack :=
  { location := none
    properties :=
      { template := files.templateContents
        templateLink := files.templateSpecId.map (fun i => { id := i })
        parameters := jsLookup files.parametersContents "parameters"
        description := config.description
        actionOnUnmanage := config.actionOnUnManage
        denySettings := config.denySettings
        bypassStackOutOfSyncError := config.bypassStackOutOfSyncError }
    tags := config.tags }

structure DeletionOptions where
  unmanageActionResources : String
  unmanageActionResourceGroups : Option String
  unmanageActionManagementGroups : Option String
  bypassStackOutOfSyncError : Option Bool
  deriving DecidableEq, Repr

/-- `getStackDeletionOptions` from `handler.ts`. -/
def getStackDeletionOptions (config : DeploymentStackConfig) :
    DeletionOptions :=
  { unmanageActionResources := config.actionOnUnManage.resources
    unmanageActionResourceGroups := config.actionOnUnManage.resourceGroups
    unmanageActionManagementGroups := config.actionOnUnManage.managementGroups
    bypassStackOutOfSyncError := config.bypassStackOutOfSyncError }

/-! ### Remote results and outputs -/

structure OutputValue where
  value : String
  deriving DecidableEq, Repr

structure RemoteProps where
  outputs : Option (List (String × OutputValue))
  deriving DecidableEq, Repr

/-- A terminal remote response: `execute` only reads
`result?.properties?.outputs` from it. -/
structure RemoteResult where
  properties : Option RemoteProps
  deriving DecidableEq, Repr

/-! ### Errors -/

/-- `ErrorResponse` from the resource-management client: the structured
service error body. -/
structure ErrorResponse where
  code : Option String
  message : Option String
  deriving DecidableEq, Repr

/-- `CloudError`: the `details` payload of a `RestError`, optionally
carrying a structured `error`. -/
structure CloudError where
  error : Option ErrorResponse
  deriving DecidableEq, Repr

/-- The pieces of an HTTP response read by the handler: headers (for
the correlation id) and the raw body text.  Body text, when present, is
taken to be valid JSON (the external `JSON.parse` is modelled as a
total re-rendering). -/
structure RestResponse where
  headers : List (String × String)
  bodyAsText : Option String
  deriving DecidableEq, Repr

/-- A thrown JS error, either a plain `Error` with a message or a
`RestError` from the transport with an optional response and
`CloudError` details. -/
inductive JsError where
  | error (message : String)
  | restError (response : Option RestResponse) (details : CloudError)
  deriving DecidableEq, Repr

/-- Lowercase a string character-wise, modelling `toLowerCase()` on the
ASCII strings the handler compares. -/
def jsToLower (s : String) : String := String.mk (s.data.map Char.toLower)

/-- Case-insensitive header lookup (`headers.get(name)`). -/
def headerGet (hs : List (String × String)) (name : String) :
    Option String :=
  (hs.find? (fun p => jsToLower p.1 == jsToLower name)).map (fun p => p.2)

/-- JS template interpolation of a possibly-undefined string. -/
def jsUndef (o : Option String) : String := o.getD "undefined"

/-- Models `JSON.stringify(JSON.parse(text), null, 2)`: an external
round-trip that re-renders the JSON body; rendered here as the text
itself. -/
def prettyJson (s : String) : String := s

/-- Models `JSON.stringify(error, null, 2)` on a structured service
error body. -/
def stringifyErrorResponse (e : ErrorResponse) : String :=
  "code: " ++ jsUndef e.code ++ "; message: " ++ jsUndef e.message

/-! ### Effects and the handler computation -/

/-- One remote client invocation, named after the client method called
by `handler.ts`, carrying the arguments passed to it. -/
inductive RemoteCall where
  | deploymentsBeginCreateOrUpdateAndWait
      (resourceGroup name : String) (body : Deployment)
  | deploymentsBeginCreateOrUpdateAtSubscriptionScopeAndWait
      (name : String) (body : Deployment)
  | deploymentsBeginCreateOrUpdateAtManagementGroupScopeAndWait
      (managementGroup name : String) (body : Deployment)
  | deploymentsBeginCreateOrUpdateAtTenantScopeAndWait
      (name : String) (body : Deployment)
  | deploymentsBeginValidateAndWait
      (resourceGroup name : String) (body : Deployment)
  | deploymentsBeginValidateAtSubscriptionScopeAndWait
      (name : String) (body : Deployment)
  | deploymentsBeginValidateAtManagementGroupScopeAndWait
      (managementGroup name : String) (body : Deployment)
  | deploymentsBeginValidateAtTenantScopeAndWait
      (name : String) (body : Deployment)
  | deploymentsBeginWhatIfAndWait
      (resourceGroup name : String) (body : Deployment)
  | deploymentsBeginWhatIfAtSubscriptionScopeAndWait
      (name : String) (body : Deployment)
  | deploymentsBeginWhatIfAtManagementGroupScopeAndWait
      (managementGroup name : String) (body : Deployment)
  | deploymentsBeginWhatIfAtTenantScopeAndWait
      (name : String) (body : Deployment)
  | stacksBeginCreateOrUpdateAtResourceGroupAndWait
      (resourceGroup name : String) (body : DeploymentStack)
  | stacksBeginCreateOrUpdateAtSubscriptionAndWait
      (name : String) (body : DeploymentStack)
  | stacksBeginCreateOrUpdateAtManagementGroupAndWait
      (managementGroup name : String) (body : DeploymentStack)
  | stacksBeginValidateStackAtResourceGroupAndWait
      (resourceGroup name : String) (body : DeploymentStack)
  | stacksBeginValidateStackAtSubscriptionAndWait
      (name : String) (body : DeploymentStack)
  | stacksBeginValidateStackAtManagementGroupAndWait
      (managementGroup name : String) (body : DeploymentStack)
  | stacksBeginDeleteAtResourceGroupAndWait
      (resourceGroup name : String) (options : DeletionOptions)
  | stacksBeginDeleteAtSubscriptionAndWait
      (name : String) (options : DeletionOptions)
  | stacksBeginDeleteAtManagementGroupAndWait
      (managementGroup name : String) (options : DeletionOptions)
  deriving DecidableEq, Repr

/-- An observable side effect of the handler. -/
inductive Effect where
  | logError (msg : String)
  | logInfoRaw (msg : String)
  | setOutput (key value : String)
  | setSecret (value : String)
  | setFailed (msg : String)
  | remote (call : RemoteCall)
  deriving DecidableEq, Repr

/-- A handler computation: the ordered effect trace it produced and
either its value or the error it threw.  Effects emitted before a
throw stay in the trace. -/
def Eff (α : Type) : Type := List Effect × Except JsError α

def Eff.ok {α : Type} (a : α) : Eff α := ([], Except.ok a)

def Eff.raise {α : Type} (e : JsError) : Eff α := ([], Except.error e)

def Eff.emit (es : List Effect) : Eff Unit := (es, Except.ok ())

def Eff.liftExc {α : Type} (x : Except JsError α) : Eff α := ([], x)

def Eff.bind {α β : Type} (x : Eff α) (f : α → Eff β) : Eff β :=
  match x with
  | (es, Except.error e) => (es, Except.error e)
  | (es, Except.ok a) => (es ++ (f a).1, (f a).2)

/-- The remote collaborators: each remote call's terminal outcome, and
the what-if formatter (`formatWhatIfOperationResult (result, "ansii")`,
an external collaborator per the spec). -/
structure Env where
  call : RemoteCall → Except JsError RemoteResult
  formatWhatIfOperationResult : RemoteResult → String

/-- Performing one remote call: the invocation is recorded on the trace
and the environment determines its outcome. -/
def Env.invoke (env : Env) (rc : RemoteCall) : Eff RemoteResult :=
  ([Effect.remote rc], env.call rc)

/-! ### Scope inference (`getScope` in `handler.ts`)

`getScope` runs the regular expression
`https:\/\/schema\.management\.azure\.com\/schemas\/[0-9a-zA-Z-]+\/([a-zA-Z]+)Template\.json#?`
over the template's `$schema` value and reads the first capture group.
The matcher below implements exactly that pattern: an unanchored search
for the literal prefix, a non-empty run of version characters, a `/`,
then a greedy non-empty letter run captured up to a literal
`Template.json` (the trailing `#?` is optional and constrains
nothing). -/

def schemaUrlStart : List Char :=
  "https://schema.management.azure.com/schemas/".toList

def isVersionChar (c : Char) : Bool := c.isAlpha || c.isDigit || c == '-'

def templateJsonLit : List Char := "Template.json".toList

/-- Does the remaining input start with the literal `Template.json`? -/
def startsWithTemplateJson (l : List Char) : Bool :=
  templateJsonLit.isPrefixOf l

/-- Greedy continuation of the capture group `([a-zA-Z]+)` followed by
the literal `Template.json`: returns the longest (possibly empty) run
of letters after which the literal matches, preferring extension over
stopping, as a backtracking regex engine does. -/
def matchCaptureStar : List Char → Option (List Char)
  | [] => none
  | c :: cs =>
    if c.isAlpha then
      match matchCaptureStar cs with
      | some cap => some (c :: cap)
      | none =>
        if startsWithTemplateJson (c :: cs) then some [] else none
    else
      if startsWithTemplateJson (c :: cs) then some [] else none

/-- The capture group `([a-zA-Z]+)` (at least one letter) followed by
`Template.json`. -/
def matchCapturePlus : List Char → Option (List Char)
  | [] => none
  | c :: cs =>
    if c.isAlpha then (matchCaptureStar cs).map (fun cap => c :: cap)
    else none

/-- The whole pattern anchored at the current position; returns the
capture group on success. -/
def execSchemaAt (l : List Char) : Option (List Char) :=
  if schemaUrlStart.isPrefixOf l then
    let afterUrl := l.drop schemaUrlStart.length
    let ver := afterUrl.span isVersionChar
    if ver.1.isEmpty then none
    else
      match ver.2 with
      | '/' :: rest => matchCapturePlus rest
      | _ => none
  else none

/-- Unanchored leftmost search, as `RegExp.exec` performs. -/
def execSchemaSearch : List Char → Option (List Char)
  | [] => none
  | c :: cs =>
    match execSchemaAt (c :: cs) with
    | some cap => some cap
    | none => execSchemaSearch cs

/-- `result ? result[1] : null` for the schema regex over an optional
`$schema` value (an absent value cannot match the pattern). -/
def schemaScopeToken (schema : Option String) : Option String :=
  match schema with
  | none => none
  | some s => (execSchemaSearch s.toList).map (fun cs => String.mk cs)

/-- `template.metadata?._generator?.name` -/
def bicepGeneratorName (t : Template) : Option String :=
  (t.metadata.bind (fun m => m._generator)).bind (fun g => g.name)

/-- JS truthiness of an optional string (`undefined` and `""` are
falsy). -/
def jsTruthyStr : Option String → Bool
  | none => false
  | some s => s ≠ ""

/-- `getScope` from `handler.ts`: infers the deployment scope from the
template's `$schema`, skipping inference for templates without
Bicep-generator metadata; an unrecognized (or absent) scope token is an
error. -/
def getScope (files : ParsedFiles) : Except JsError (Option ScopeType) :=
  let template := files.templateContents.getD emptyTemplate
  let bicepGenerated := bicepGeneratorName template
  let schema := template.schema
  if jsTruthyStr bicepGenerated = false then
    Except.ok none
  else
    let result := schemaScopeToken schema
    let scopeMatch := result.map jsToLower
    match scopeMatch with
    | some tok =>
      if tok = "tenantdeployment" then Except.ok (some ScopeType.tenant)
      else if tok = "managementgroupdeployment" then
        Except.ok (some ScopeType.managementGroup)
      else if tok = "subscriptiondeployment" then
        Except.ok (some ScopeType.subscription)
      else if tok = "deployment" then
        Except.ok (some ScopeType.resourceGroup)
      else
        Except.error
          (JsError.error "Failed to determine deployment scope from Bicep file.")
    | none =>
      Except.error
        (JsError.error "Failed to determine deployment scope from Bicep file.")

/-- The `ScopeMismatch` message thrown by `validateFileScope`. -/
def scopeMismatchMessage (inferred configured : ScopeType) : String :=
  "The target scope " ++ inferred.toJs ++
    " does not match the deployment scope " ++ configured.toJs ++ "."

/-- `validateFileScope` from `handler.ts`. -/
def validateFileScope (config : ActionConfig) (files : ParsedFiles) :
    Except JsError Unit :=
  match getScope files with
  | Except.error e => Except.error e
  | Except.ok none => Except.ok ()
  | Except.ok (some scope) =>
    if scope ≠ config.scopeType then
      Except.error (JsError.error (scopeMismatchMessage scope config.scopeType))
    else
      Except.ok ()

/-! ### Output projection (`setCreateOutputs`) -/

/-- Does `key` match an entry of `config.maskedOutputs`
case-insensitively?  (`config.maskedOutputs && config.maskedOutputs.some(...)`.) -/
def maskedMatches (config : ActionConfig) (key : String) : Bool :=
  match config.maskedOutputs with
  | none => false
  | some ms => ms.any (fun x => jsToLower x == jsToLower key)

/-- `setCreateOutputs` from `handler.ts`, as the effect list it emits:
each output entry is written under its key, and entries whose key
matches a masked-output name case-insensitively are additionally
registered as secrets. -/
def setCreateOutputs (config : ActionConfig)
    (outputs : Option (List (String × OutputValue))) : List Effect :=
  match outputs with
  | none => []
  | some outs =>
    outs.flatMap (fun kv =>
      Effect.setOutput kv.1 kv.2.value ::
        (if maskedMatches config kv.1 then [Effect.setSecret kv.2.value]
         else []))

/-! ### Location precondition and error translation -/

/-- `requireLocation` from `handler.ts`: throws
`Error("Location is required")` when the configuration has no
location. -/
def requireLocation (config : ActionConfig) : Eff String :=
  match config.location with
  | none => Eff.raise (JsError.error "Location is required")
  | some l => Eff.ok l

/-- `tryWithErrorHandling` from `handler.ts`: a `RestError` gets its
correlation id logged; if it carries a structured `error` body the
caller-supplied handler runs and the error is swallowed (the result is
`undefined`); every other error is re-thrown. -/
def innerCorrelationLog (resp : Option RestResponse) : Effect :=
  Effect.logError ("Request failed. CorrelationId: " ++
    jsUndef (resp.bind (fun r => headerGet r.headers "x-ms-correlation-request-id")))

def tryWithErrorHandling {α : Type} (action : Eff α)
    (onError : ErrorResponse → List Effect) : Eff (Option α) :=
  match action with
  | (es, Except.ok a) => (es, Except.ok (some a))
  | (es, Except.error ex) =>
    match ex with
    | JsError.restError resp details =>
      match details.error with
      | some e => (es ++ innerCorrelationLog resp :: onError e, Except.ok none)
      | none => (es ++ [innerCorrelationLog resp], Except.error ex)
    | JsError.error _ => (es, Except.error ex)

/-! ### Operation dispatch (`deploymentCreate` … `stackDelete`) -/

/-- `deploymentCreate` from `handler.ts`.  Note the tenant branch
awaits the remote call without returning its result, so the function
yields `undefined` (`none`) there. -/
def deploymentCreate (env : Env) (config : DeploymentsConfig)
    (files : ParsedFiles) : Eff (Option RemoteResult) :=
  let name := config.name.getD defaultName
  let deployment := getDeployment config files
  match config.scope with
  | DeploymentsScope.resourceGroup _ _ rg =>
    Eff.bind
      (env.invoke (RemoteCall.deploymentsBeginCreateOrUpdateAndWait rg name deployment))
      (fun r => Eff.ok (some r))
  | DeploymentsScope.subscription _ _ =>
    Eff.bind (requireLocation (ActionConfig.deployment config)) (fun loc =>
      Eff.bind
        (env.invoke (RemoteCall.deploymentsBeginCreateOrUpdateAtSubscriptionScopeAndWait
          name { deployment with location := some loc }))
        (fun r => Eff.ok (some r)))
  | DeploymentsScope.managementGroup _ mg =>
    Eff.bind (requireLocation (ActionConfig.deployment config)) (fun loc =>
      Eff.bind
        (env.invoke (RemoteCall.deploymentsBeginCreateOrUpdateAtManagementGroupScopeAndWait
          mg name { deployment with location := some loc }))
        (fun r => Eff.ok (some r)))
  | DeploymentsScope.tenant _ =>
    Eff.bind (requireLocation (ActionConfig.deployment config)) (fun loc =>
      Eff.bind
        (env.invoke (RemoteCall.deploymentsBeginCreateOrUpdateAtTenantScopeAndWait
          name { deployment with location := some loc }))
        (fun _ => Eff.ok none))

/-- `deploymentValidate` from `handler.ts`; its tenant branch likewise
returns `undefined`. -/
def deploymentValidate (env : Env) (config : DeploymentsConfig)
    (files : ParsedFiles) : Eff (Option RemoteResult) :=
  let name := config.name.getD defaultName
  let deployment := getDeployment config files
  match config.scope with
  | DeploymentsScope.resourceGroup _ _ rg =>
    Eff.bind
      (env.invoke (RemoteCall.deploymentsBeginValidateAndWait rg name deployment))
      (fun r => Eff.ok (some r))
  | DeploymentsScope.subscription _ _ =>
    Eff.bind (requireLocation (ActionConfig.deployment config)) (fun loc =>
      Eff.bind
        (env.invoke (RemoteCall.deploymentsBeginValidateAtSubscriptionScopeAndWait
          name { deployment with location := some loc }))
        (fun r => Eff.ok (some r)))
  | DeploymentsScope.managementGroup _ mg =>
    Eff.bind (requireLocation (ActionConfig.deployment config)) (fun loc =>
      Eff.bind
        (env.invoke (RemoteCall.deploymentsBeginValidateAtManagementGroupScopeAndWait
          mg name { deployment with location := some loc }))
        (fun r => Eff.ok (some r)))
  | DeploymentsScope.tenant _ =>
    Eff.bind (requireLocation (ActionConfig.deployment config)) (fun loc =>
      Eff.bind
        (env.invoke (RemoteCall.deploymentsBeginValidateAtTenantScopeAndWait
          name { deployment with location := some loc }))
        (fun _ => Eff.ok none))

/-- `deploymentWhatIf` from `handler.ts` (every branch returns its
result). -/
def deploymentWhatIf (env : Env) (config : DeploymentsConfig)
    (files : ParsedFiles) : Eff RemoteResult :=
  let deploymentName := config.name.getD defaultName
  let deployment := getDeployment config files
  match config.scope with
  | DeploymentsScope.resourceGroup _ _ rg =>
    env.invoke (RemoteCall.deploymentsBeginWhatIfAndWait rg deploymentName deployment)
  | DeploymentsScope.subscription _ _ =>
    Eff.bind (requireLocation (ActionConfig.deployment config)) (fun loc =>
      env.invoke (RemoteCall.deploymentsBeginWhatIfAtSubscriptionScopeAndWait
        deploymentName { deployment with location := some loc }))
  | DeploymentsScope.managementGroup _ mg =>
    Eff.bind (requireLocation (ActionConfig.deployment config)) (fun loc =>
      env.invoke (RemoteCall.deploymentsBeginWhatIfAtManagementGroupScopeAndWait
        mg deploymentName { deployment with location := some loc }))
  | DeploymentsScope.tenant _ =>
    Eff.bind (requireLocation (ActionConfig.deployment config)) (fun loc =>
      env.invoke (RemoteCall.deploymentsBeginWhatIfAtTenantScopeAndWait
        deploymentName { deployment with location := some loc }))

/-- `stackCreate` from `handler.ts`. -/
def stackCreate (env : Env) (config : DeploymentStackConfig)
    (files : ParsedFiles) : Eff RemoteResult :=
  let name := config.name.getD defaultName
  let stack := getStack config files
  match config.scope with
  | StackScope.resourceGroup _ _ rg =>
    env.invoke (RemoteCall.stacksBeginCreateOrUpdateAtResourceGroupAndWait rg name stack)
  | StackScope.subscription _ _ =>
    Eff.bind (requireLocation (ActionConfig.deploymentStack config)) (fun loc =>
      env.invoke (RemoteCall.stacksBeginCreateOrUpdateAtSubscriptionAndWait
        name { stack with location := some loc }))
  | StackScope.managementGroup _ mg =>
    Eff.bind (requireLocation (ActionConfig.deploymentStack config)) (fun loc =>
      env.invoke (RemoteCall.stacksBeginCreateOrUpdateAtManagementGroupAndWait
        mg name { stack with location := some loc }))

/-- `stackValidate` from `handler.ts`. -/
def stackValidate (env : Env) (config : DeploymentStackConfig)
    (files : ParsedFiles) : Eff RemoteResult :=
  let name := config.name.getD defaultName
  let stack := getStack config files
  match config.scope with
  | StackScope.resourceGroup _ _ rg =>
    env.invoke (RemoteCall.stacksBeginValidateStackAtResourceGroupAndWait rg name stack)
  | StackScope.subscription _ _ =>
    Eff.bind (requireLocation (ActionConfig.deploymentStack config)) (fun loc =>
      env.invoke (RemoteCall.stacksBeginValidateStackAtSubscriptionAndWait
        name { stack with location := some loc }))
  | StackScope.managementGroup _ mg =>
    Eff.bind (requireLocation (ActionConfig.deploymentStack config)) (fun loc =>
      env.invoke (RemoteCall.stacksBeginValidateStackAtManagementGroupAndWait
        mg name { stack with location := some loc }))

/-- `stackDelete` from `handler.ts`: builds deletion options from the
unmanage-action settings; no location is read. -/
def stackDelete (env : Env) (config : DeploymentStackConfig) :
    Eff RemoteResult :=
  let name := config.name.getD defaultName
  let deletionOptions := getStackDeletionOptions config
  match config.scope with
  | StackScope.resourceGroup _ _ rg =>
    env.invoke (RemoteCall.stacksBeginDeleteAtResourceGroupAndWait rg name deletionOptions)
  | StackScope.subscription _ _ =>
    env.invoke (RemoteCall.stacksBeginDeleteAtSubscriptionAndWait name deletionOptions)
  | StackScope.managementGroup _ mg =>
    env.invoke (RemoteCall.stacksBeginDeleteAtManagementGroupAndWait mg name deletionOptions)

/-! ### `execute` -/

/-- The inner `onError` callbacks passed to `tryWithErrorHandling` by
`execute`: log the structured error and mark the run failed with the
domain-specific message. -/
def domainOnError (msg : String) (e : ErrorResponse) : List Effect :=
  [Effect.logError (stringifyErrorResponse e), Effect.setFailed msg]

/-- `result?.properties?.outputs` on an optional remote result. -/
def outputsOf (r : Option RemoteResult) :
    Option (List (String × OutputValue)) :=
  (r.bind (fun x => x.properties)).bind (fun p => p.outputs)

/-- The body of `execute`'s `try` block: scope validation followed by
the operation dispatch. -/
def executeBody (env : Env) (config : ActionConfig) (files : ParsedFiles) :
    Eff Unit :=
  Eff.bind (Eff.liftExc (validateFileScope config files)) (fun _ =>
    match config with
    | ActionConfig.deployment c =>
      match c.operation with
      | DeploymentOperation.create =>
        Eff.bind
          (tryWithErrorHandling
            (Eff.bind (deploymentCreate env c files) (fun result =>
              Eff.emit (setCreateOutputs (ActionConfig.deployment c) (outputsOf result))))
            (domainOnError "Create failed"))
          (fun _ => Eff.ok ())
      | DeploymentOperation.validate =>
        Eff.bind
          (tryWithErrorHandling (deploymentValidate env c files)
            (domainOnError "Validation failed"))
          (fun _ => Eff.ok ())
      | DeploymentOperation.whatIf =>
        Eff.bind (deploymentWhatIf env c files) (fun result =>
          Eff.emit [Effect.logInfoRaw (env.formatWhatIfOperationResult result)])
    | ActionConfig.deploymentStack c =>
      match c.operation with
      | StackOperation.create =>
        Eff.bind
          (tryWithErrorHandling
            (Eff.bind (stackCreate env c files) (fun result =>
              Eff.emit
                (setCreateOutputs (ActionConfig.deploymentStack c)
                  (outputsOf (some result)))))
            (domainOnError "Create failed"))
          (fun _ => Eff.ok ())
      | StackOperation.validate =>
        Eff.bind
          (tryWithErrorHandling (stackValidate env c files)
            (domainOnError "Validation failed"))
          (fun _ => Eff.ok ())
      | StackOperation.delete =>
        Eff.bind (stackDelete env c) (fun _ => Eff.ok ()))

/-- The diagnostics logged by `execute`'s top-level `catch` before it
marks the run failed: for a `RestError` whose response carries
(non-empty) body text, the correlation id and the re-rendered JSON
body. -/
def topLevelLogs (err : JsError) : List Effect :=
  match err with
  | JsError.restError (some resp) _ =>
    match resp.bodyAsText with
    | some bodyText =>
      if bodyText = "" then []
      else
        [Effect.logError ("Request failed. CorrelationId: " ++
            jsUndef (headerGet resp.headers "x-ms-correlation-request-id")),
          Effect.logError (prettyJson bodyText)]
    | none => []
  | _ => []

/-- `execute` from `handler.ts`: the dispatch wrapped in the top-level
`catch`, which logs diagnostics when available, marks the run failed
with "Operation failed", and re-throws. -/
def execute (env : Env) (config : ActionConfig) (files : ParsedFiles) :
    Eff Unit :=
  match executeBody env config files with
  | (es, Except.ok _) => (es, Except.ok ())
  | (es, Except.error err) =>
    (es ++ topLevelLogs err ++ [Effect.setFailed "Operation failed"],
      Except.error err)

/-- The remote call carried by an effect, if any. -/
def Effect.remoteOf : Effect → Option RemoteCall
  | Effect.remote rc => some rc
  | _ => none

/-- The remote calls recorded on a computation's trace. -/
def remoteCalls {α : Type} (x : Eff α) : List RemoteCall :=
  x.1.filterMap Effect.remoteOf

/-! ### Concrete fixtures, used to evaluate the development on
explicit inputs -/

def tmplPlain : Template :=
  { schema := some "custom-schema", metadata := none, body := "tpl-body" }

def tmplTenantBicep : Template :=
  { schema := some
      "https://schema.management.azure.com/schemas/v1/tenantDeploymentTemplate.json#"
    metadata := some { _generator := some { name := some "bicep" } }
    body := "" }

def tmplUnknownBicep : Template :=
  { schema := some
      "https://schema.management.azure.com/schemas/v1/fooTemplate.json#"
    metadata := some { _generator := some { name := some "bicep" } }
    body := "" }

def filesEmpty : ParsedFiles :=
  { templateContents := none, templateSpecId := none,
    parametersContents := [] }

def filesBoth : ParsedFiles :=
  { templateContents := some tmplPlain, templateSpecId := some "ts-1",
    parametersContents := [] }

def filesSpecOnly : ParsedFiles :=
  { templateContents := none, templateSpecId := some "ts-1",
    parametersContents := [] }

def filesTenantBicep : ParsedFiles :=
  { templateContents := some tmplTenantBicep, templateSpecId := none,
    parametersContents := [] }

def filesUnknownBicep : ParsedFiles :=
  { templateContents := some tmplUnknownBicep, templateSpecId := none,
    parametersContents := [] }

def tmplTenantNoGen : Template :=
  { schema := some
      "https://schema.management.azure.com/schemas/v1/tenantDeploymentTemplate.json#"
    metadata := none
    body := "" }

def filesTenantNoGen : ParsedFiles :=
  { templateContents := some tmplTenantNoGen, templateSpecId := none,
    parametersContents := [] }

def aouFix : ActionOnUnmanage :=
  { resources := "delete", resourceGroups := none,
    managementGroups := none }

def dsFix : DenySettings := { mode := "none" }

def cfgDepValRG : DeploymentsConfig :=
  { operation := DeploymentOperation.validate, name := some "dep"
    scope := DeploymentsScope.resourceGroup "sub-1" "ten-1" "rg-1"
    location := none, tags := [], maskedOutputs := none }

def cfgDepCreateRG : DeploymentsConfig :=
  { operation := DeploymentOperation.create, name := some "dep"
    scope := DeploymentsScope.resourceGroup "sub-1" "ten-1" "rg-1"
    location := none, tags := [], maskedOutputs := some ["SecretOut"] }

def cfgDepCreateTenant : DeploymentsConfig :=
  { operation := DeploymentOperation.create, name := some "dep"
    scope := DeploymentsScope.tenant "ten-1"
    location := some "westus", tags := [], maskedOutputs := none }

def cfgDepValSubNoLoc : DeploymentsConfig :=
  { operation := DeploymentOperation.validate, name := some "dep"
    scope := DeploymentsScope.subscription "sub-1" "ten-1"
    location := none, tags := [], maskedOutputs := none }

def cfgStackDelSubNoLoc : DeploymentStackConfig :=
  { operation := StackOperation.delete, name := some "stk"
    scope := StackScope.subscription "sub-1" "ten-1"
    location := none, tags := [], maskedOutputs := none
    description := none, actionOnUnManage := aouFix, denySettings := dsFix
    bypassStackOutOfSyncError := none }

def outW : List (String × OutputValue) :=
  [("foo", { value := "bar" }), ("secretOut", { value := "baz" })]

def envOk : Env :=
  { call := fun _ => Except.ok { properties := some { outputs := some outW } }
    formatWhatIfOperationResult := fun _ => "whatif-diff" }

def respW : RestResponse :=
  { headers := [("x-ms-correlation-request-id", "cid-1")]
    bodyAsText := some "error-body" }

def errRespW : ErrorResponse :=
  { code := some "InvalidTemplateDeployment"
    message := some "validation failed" }

def envStructErr : Env :=
  { call := fun _ =>
      Except.error (JsError.restError (some respW) { error := some errRespW })
    formatWhatIfOperationResult := fun _ => "" }

def envUnstructErr : Env :=
  { call := fun _ =>
      Except.error (JsError.restError (some respW) { error := none })
    formatWhatIfOperationResult := fun _ => "" }

/-! ### Helper lemmas -/

theorem Eff.bind_pair_ok {α β : Type} (es : List Effect) (a : α)
    (f : α → Eff β) :
    Eff.bind (es, Except.ok a) f = (es ++ (f a).1, (f a).2) := rfl

theorem Eff.bind_pair_error {α β : Type} (es : List Effect) (e : JsError)
    (f : α → Eff β) :
    Eff.bind (es, Except.error e) f = (es, Except.error e) := rfl

theorem Eff.bind_ok_left {α β : Type} (a : α) (f : α → Eff β) :
    Eff.bind (Eff.ok a) f = f a := by
  show ([] ++ (f a).1, (f a).2) = f a
  simp

theorem Eff.bind_raise_left {α β : Type} (e : JsError) (f : α → Eff β) :
    Eff.bind (Eff.raise e) f = Eff.raise e := rfl

theorem remoteCalls_pair {α : Type} (es : List Effect)
    (r : Except JsError α) :
    remoteCalls ((es, r) : Eff α) = es.filterMap Effect.remoteOf := rfl

theorem remoteCalls_bind {α β : Type} (x : Eff α) (f : α → Eff β) :
    remoteCalls (Eff.bind x f) =
      remoteCalls x ++
        (match x.2 with
         | Except.ok a => remoteCalls (f a)
         | Except.error _ => []) := by
  obtain ⟨es, r⟩ := x
  cases r <;> simp [Eff.bind, remoteCalls, List.filterMap_append]

theorem remoteCalls_bind_const_nil {α β : Type} (x : Eff α)
    (f : α → Eff β) (hf : ∀ a, remoteCalls (f a) = []) :
    remoteCalls (Eff.bind x f) = remoteCalls x := by
  rw [remoteCalls_bind]
  obtain ⟨es, r⟩ := x
  cases r <;> simp [hf]

theorem remoteCalls_invoke (env : Env) (rc : RemoteCall) :
    remoteCalls (env.invoke rc) = [rc] := rfl

theorem remoteCalls_ok {α : Type} (a : α) :
    remoteCalls (Eff.ok a) = [] := rfl

theorem remoteCalls_raise {α : Type} (e : JsError) :
    remoteCalls (Eff.raise e : Eff α) = [] := rfl

theorem remoteCalls_bind_invoke {α : Type} (env : Env) (rc : RemoteCall)
    (k : RemoteResult → Eff α) (hk : ∀ r, remoteCalls (k r) = []) :
    remoteCalls (Eff.bind (env.invoke rc) k) = [rc] := by
  rw [remoteCalls_bind_const_nil _ _ hk, remoteCalls_invoke]

theorem setCreateOutputs_no_remote (config : ActionConfig)
    (outputs : Option (List (String × OutputValue))) :
    (setCreateOutputs config outputs).filterMap Effect.remoteOf = [] := by
  cases outputs with
  | none => rfl
  | some outs =>
    induction outs with
    | nil => rfl
    | cons kv rest ih =>
      simp only [setCreateOutputs, List.flatMap_cons, List.filterMap_append]
      rw [List.filterMap_cons]
      by_cases h : maskedMatches config kv.1 = true
      · simp only [h, if_true]
        simpa [Effect.remoteOf, setCreateOutputs] using ih
      · simp only [Bool.not_eq_true] at h
        simp only [h, Bool.false_eq_true, if_false]
        simpa [Effect.remoteOf, setCreateOutputs] using ih

theorem domainOnError_no_remote (msg : String) (e : ErrorResponse) :
    (domainOnError msg e).filterMap Effect.remoteOf = [] := rfl

theorem tryWEH_pair_ok {α : Type} (es : List Effect) (a : α)
    (onError : ErrorResponse → List Effect) :
    tryWithErrorHandling ((es, Except.ok a) : Eff α) onError =
      (es, Except.ok (some a)) := rfl

theorem tryWEH_pair_structured {α : Type} (es : List Effect)
    (resp : Option RestResponse) (e : ErrorResponse)
    (onError : ErrorResponse → List Effect) :
    tryWithErrorHandling
        ((es, Except.error (JsError.restError resp { error := some e })) : Eff α)
        onError =
      (es ++ innerCorrelationLog resp :: onError e, Except.ok none) := rfl

theorem tryWEH_pair_unstructured {α : Type} (es : List Effect)
    (resp : Option RestResponse) (onError : ErrorResponse → List Effect) :
    tryWithErrorHandling
        ((es, Except.error (JsError.restError resp { error := none })) : Eff α)
        onError =
      (es ++ [innerCorrelationLog resp],
        Except.error (JsError.restError resp { error := none })) := rfl

theorem tryWEH_pair_plain {α : Type} (es : List Effect) (m : String)
    (onError : ErrorResponse → List Effect) :
    tryWithErrorHandling ((es, Except.error (JsError.error m)) : Eff α)
        onError =
      (es, Except.error (JsError.error m)) := rfl

theorem remoteCalls_tryWEH {α : Type} (action : Eff α)
    (onError : ErrorResponse → List Effect)
    (h : ∀ e, (onError e).filterMap Effect.remoteOf = []) :
    remoteCalls (tryWithErrorHandling action onError) =
      remoteCalls action := by
  obtain ⟨es, r⟩ := action
  cases r with
  | ok a => rfl
  | error ex =>
    cases ex with
    | restError resp details =>
      obtain ⟨oe⟩ := details
      cases oe with
      | none =>
        simp [tryWithErrorHandling, remoteCalls, List.filterMap_append,
          innerCorrelationLog, Effect.remoteOf]
      | some e =>
        simp [tryWithErrorHandling, remoteCalls, List.filterMap_append,
          innerCorrelationLog, Effect.remoteOf, h]
    | error m => rfl

theorem topLevelLogs_no_remote (err : JsError) :
    (topLevelLogs err).filterMap Effect.remoteOf = [] := by
  cases err with
  | error m => rfl
  | restError resp details =>
    cases resp with
    | none => rfl
    | some r =>
      obtain ⟨hs, bt⟩ := r
      cases bt with
      | none => rfl
      | some t =>
        simp only [topLevelLogs]
        by_cases h : t = "" <;> simp [h, Effect.remoteOf]

theorem execute_of_body_ok (env : Env) (config : ActionConfig)
    (files : ParsedFiles) (es : List Effect) (u : Unit)
    (h : executeBody env config files = (es, Except.ok u)) :
    execute env config files = (es, Except.ok ()) := by
  simp [execute, h]

theorem execute_of_body_error (env : Env) (config : ActionConfig)
    (files : ParsedFiles) (es : List Effect) (ex : JsError)
    (h : executeBody env config files = (es, Except.error ex)) :
    execute env config files =
      (es ++ topLevelLogs ex ++ [Effect.setFailed "Operation failed"],
        Except.error ex) := by
  simp [execute, h]

theorem remoteCalls_execute (env : Env) (config : ActionConfig)
    (files : ParsedFiles) :
    remoteCalls (execute env config files) =
      remoteCalls (executeBody env config files) := by
  rcases h : executeBody env config files with ⟨es, r⟩
  cases r with
  | ok u => rw [execute_of_body_ok env config files es u h]
  | error ex =>
    rw [execute_of_body_error env config files es ex h]
    simp [remoteCalls, List.filterMap_append, topLevelLogs_no_remote,
      Effect.remoteOf]

theorem remoteCalls_invoke_bind {α : Type} (env : Env) (rc : RemoteCall)
    (v : RemoteResult → α) :
    remoteCalls (Eff.bind (env.invoke rc) (fun r => Eff.ok (v r))) = [rc] := by
  rw [remoteCalls_bind]
  cases h : (env.invoke rc).2 with
  | ok a => simp [h, remoteCalls_invoke, remoteCalls_ok]
  | error e => simp [h, remoteCalls_invoke]

theorem remoteCalls_deploymentCreate (env : Env) (c : DeploymentsConfig)
    (files : ParsedFiles)
    (hloc : (ActionConfig.deployment c).hasRequiredLocation = true) :
    (remoteCalls (deploymentCreate env c files)).length = 1 := by
  obtain ⟨op, nm, scope, loc, tags, mo⟩ := c
  cases scope with
  | resourceGroup s t rg =>
    simp only [deploymentCreate]
    rw [remoteCalls_invoke_bind]
    rfl
  | subscription s t =>
    simp only [ActionConfig.hasRequiredLocation, ActionConfig.scopeType,
      ActionConfig.location, DeploymentsScope.type] at hloc
    rcases Option.isSome_iff_exists.mp (by simpa using hloc) with ⟨l, rfl⟩
    simp only [deploymentCreate, requireLocation, ActionConfig.location,
      Eff.bind_ok_left]
    rw [remoteCalls_invoke_bind]
    rfl
  | managementGroup t mg =>
    simp only [ActionConfig.hasRequiredLocation, ActionConfig.scopeType,
      ActionConfig.location, DeploymentsScope.type] at hloc
    rcases Option.isSome_iff_exists.mp (by simpa using hloc) with ⟨l, rfl⟩
    simp only [deploymentCreate, requireLocation, ActionConfig.location,
      Eff.bind_ok_left]
    rw [remoteCalls_invoke_bind]
    rfl
  | tenant t =>
    simp only [ActionConfig.hasRequiredLocation, ActionConfig.scopeType,
      ActionConfig.location, DeploymentsScope.type] at hloc
    rcases Option.isSome_iff_exists.mp (by simpa using hloc) with ⟨l, rfl⟩
    simp only [deploymentCreate, requireLocation, ActionConfig.location,
      Eff.bind_ok_left]
    rw [remoteCalls_invoke_bind]
    rfl

theorem deploymentCreate_fail (env : Env) (c : DeploymentsConfig)
    (files : ParsedFiles) (ex : JsError)
    (henv : ∀ rc, env.call rc = Except.error ex)
    (hloc : (ActionConfig.deployment c).hasRequiredLocation = true) :
    (deploymentCreate env c files).2 = Except.error ex := by
  obtain ⟨op, nm, scope, loc, tags, mo⟩ := c
  cases scope with
  | resourceGroup s t rg =>
    simp only [deploymentCreate, Env.invoke, henv, Eff.bind_pair_error]
  | subscription s t =>
    simp only [ActionConfig.hasRequiredLocation, ActionConfig.scopeType,
      ActionConfig.location, DeploymentsScope.type] at hloc
    rcases Option.isSome_iff_exists.mp (by simpa using hloc) with ⟨l, rfl⟩
    simp only [deploymentCreate, requireLocation, ActionConfig.location,
      Eff.bind_ok_left, Env.invoke, henv, Eff.bind_pair_error]
  | managementGroup t mg =>
    simp only [ActionConfig.hasRequiredLocation, ActionConfig.scopeType,
      ActionConfig.location, DeploymentsScope.type] at hloc
    rcases Option.isSome_iff_exists.mp (by simpa using hloc) with ⟨l, rfl⟩
    simp only [deploymentCreate, requireLocation, ActionConfig.location,
      Eff.bind_ok_left, Env.invoke, henv, Eff.bind_pair_error]
  | tenant t =>
    simp only [ActionConfig.hasRequiredLocation, ActionConfig.scopeType,
      ActionConfig.location, DeploymentsScope.type] at hloc
    rcases Option.isSome_iff_exists.mp (by simpa using hloc) with ⟨l, rfl⟩
    simp only [deploymentCreate, requireLocation, ActionConfig.location,
      Eff.bind_ok_left, Env.invoke, henv, Eff.bind_pair_error]

theorem deploymentCreate_noLocation (env : Env) (c : DeploymentsConfig)
    (files : ParsedFiles) (hloc : c.location = none)
    (hs : c.scope.type ≠ ScopeType.resourceGroup) :
    deploymentCreate env c files =
      ([], Except.error (JsError.error "Location is required")) := by
  obtain ⟨op, nm, scope, loc, tags, mo⟩ := c
  replace hloc : loc = none := hloc
  subst hloc
  cases scope with
  | resourceGroup s t rg => exact absurd rfl hs
  | subscription s t =>
    simp only [deploymentCreate, requireLocation, ActionConfig.location,
      Eff.raise, Eff.bind_pair_error]
  | managementGroup t mg =>
    simp only [deploymentCreate, requireLocation, ActionConfig.location,
      Eff.raise, Eff.bind_pair_error]
  | tenant t =>
    simp only [deploymentCreate, requireLocation, ActionConfig.location,
      Eff.raise, Eff.bind_pair_error]

theorem remoteCalls_deploymentValidate (env : Env) (c : DeploymentsConfig)
    (files : ParsedFiles)
    (hloc : (ActionConfig.deployment c).hasRequiredLocation = true) :
    (remoteCalls (deploymentValidate env c files)).length = 1 := by
  obtain ⟨op, nm, scope, loc, tags, mo⟩ := c
  cases scope with
  | resourceGroup s t rg =>
    simp only [deploymentValidate]
    rw [remoteCalls_invoke_bind]
    rfl
  | subscription s t =>
    simp only [ActionConfig.hasRequiredLocation, ActionConfig.scopeType,
      ActionConfig.location, DeploymentsScope.type] at hloc
    rcases Option.isSome_iff_exists.mp (by simpa using hloc) with ⟨l, rfl⟩
    simp only [deploymentValidate, requireLocation, ActionConfig.location,
      Eff.bind_ok_left]
    rw [remoteCalls_invoke_bind]
    rfl
  | managementGroup t mg =>
    simp only [ActionConfig.hasRequiredLocation, ActionConfig.scopeType,
      ActionConfig.location, DeploymentsScope.type] at hloc
    rcases Option.isSome_iff_exists.mp (by simpa using hloc) with ⟨l, rfl⟩
    simp only [deploymentValidate, requireLocation, ActionConfig.location,
      Eff.bind_ok_left]
    rw [remoteCalls_invoke_bind]
    rfl
  | tenant t =>
    simp only [ActionConfig.hasRequiredLocation, ActionConfig.scopeType,
      ActionConfig.location, DeploymentsScope.type] at hloc
    rcases Option.isSome_iff_exists.mp (by simpa using hloc) with ⟨l, rfl⟩
    simp only [deploymentValidate, requireLocation, ActionConfig.location,
      Eff.bind_ok_left]
    rw [remoteCalls_invoke_bind]
    rfl

theorem deploymentValidate_fail (env : Env) (c : DeploymentsConfig)
    (files : ParsedFiles) (ex : JsError)
    (henv : ∀ rc, env.call rc = Except.error ex)
    (hloc : (ActionConfig.deployment c).hasRequiredLocation = true) :
    (deploymentValidate env c files).2 = Except.error ex := by
  obtain ⟨op, nm, scope, loc, tags, mo⟩ := c
  cases scope with
  | resourceGroup s t rg =>
    simp only [deploymentValidate, Env.invoke, henv, Eff.bind_pair_error]
  | subscription s t =>
    simp only [ActionConfig.hasRequiredLocation, ActionConfig.scopeType,
      ActionConfig.location, DeploymentsScope.type] at hloc
    rcases Option.isSome_iff_exists.mp (by simpa using hloc) with ⟨l, rfl⟩
    simp only [deploymentValidate, requireLocation, ActionConfig.location,
      Eff.bind_ok_left, Env.invoke, henv, Eff.bind_pair_error]
  | managementGroup t mg =>
    simp only [ActionConfig.hasRequiredLocation, ActionConfig.scopeType,
      ActionConfig.location, DeploymentsScope.type] at hloc
    rcases Option.isSome_iff_exists.mp (by simpa using hloc) with ⟨l, rfl⟩
    simp only [deploymentValidate, requireLocation, ActionConfig.location,
      Eff.bind_ok_left, Env.invoke, henv, Eff.bind_pair_error]
  | tenant t =>
    simp only [ActionConfig.hasRequiredLocation, ActionConfig.scopeType,
      ActionConfig.location, DeploymentsScope.type] at hloc
    rcases Option.isSome_iff_exists.mp (by simpa using hloc) with ⟨l, rfl⟩
    simp only [deploymentValidate, requireLocation, ActionConfig.location,
      Eff.bind_ok_left, Env.invoke, henv, Eff.bind_pair_error]

theorem deploymentValidate_noLocation (env : Env) (c : DeploymentsConfig)
    (files : ParsedFiles) (hloc : c.location = none)
    (hs : c.scope.type ≠ ScopeType.resourceGroup) :
    deploymentValidate env c files =
      ([], Except.error (JsError.error "Location is required")) := by
  obtain ⟨op, nm, scope, loc, tags, mo⟩ := c
  replace hloc : loc = none := hloc
  subst hloc
  cases scope with
  | resourceGroup s t rg => exact absurd rfl hs
  | subscription s t =>
    simp only [deploymentValidate, requireLocation, ActionConfig.location,
      Eff.raise, Eff.bind_pair_error]
  | managementGroup t mg =>
    simp only [deploymentValidate, requireLocation, ActionConfig.location,
      Eff.raise, Eff.bind_pair_error]
  | tenant t =>
    simp only [deploymentValidate, requireLocation, ActionConfig.location,
      Eff.raise, Eff.bind_pair_error]

theorem remoteCalls_deploymentWhatIf (env : Env) (c : DeploymentsConfig)
    (files : ParsedFiles)
    (hloc : (ActionConfig.deployment c).hasRequiredLocation = true) :
    (remoteCalls (deploymentWhatIf env c files)).length = 1 := by
  obtain ⟨op, nm, scope, loc, tags, mo⟩ := c
  cases scope with
  | resourceGroup s t rg =>
    simp only [deploymentWhatIf]
    rw [remoteCalls_invoke]
    rfl
  | subscription s t =>
    simp only [ActionConfig.hasRequiredLocation, ActionConfig.scopeType,
      ActionConfig.location, DeploymentsScope.type] at hloc
    rcases Option.isSome_iff_exists.mp (by simpa using hloc) with ⟨l, rfl⟩
    simp only [deploymentWhatIf, requireLocation, ActionConfig.location,
      Eff.bind_ok_left]
    rw [remoteCalls_invoke]
    rfl
  | managementGroup t mg =>
    simp only [ActionConfig.hasRequiredLocation, ActionConfig.scopeType,
      ActionConfig.location, DeploymentsScope.type] at hloc
    rcases Option.isSome_iff_exists.mp (by simpa using hloc) with ⟨l, rfl⟩
    simp only [deploymentWhatIf, requireLocation, ActionConfig.location,
      Eff.bind_ok_left]
    rw [remoteCalls_invoke]
    rfl
  | tenant t =>
    simp only [ActionConfig.hasRequiredLocation, ActionConfig.scopeType,
      ActionConfig.location, DeploymentsScope.type] at hloc
    rcases Option.isSome_iff_exists.mp (by simpa using hloc) with ⟨l, rfl⟩
    simp only [deploymentWhatIf, requireLocation, ActionConfig.location,
      Eff.bind_ok_left]
    rw [remoteCalls_invoke]
    rfl

theorem deploymentWhatIf_fail (env : Env) (c : DeploymentsConfig)
    (files : ParsedFiles) (ex : JsError)
    (henv : ∀ rc, env.call rc = Except.error ex)
    (hloc : (ActionConfig.deployment c).hasRequiredLocation = true) :
    (deploymentWhatIf env c files).2 = Except.error ex := by
  obtain ⟨op, nm, scope, loc, tags, mo⟩ := c
  cases scope with
  | resourceGroup s t rg =>
    simp only [deploymentWhatIf, Env.invoke, henv]
  | subscription s t =>
    simp only [ActionConfig.hasRequiredLocation, ActionConfig.scopeType,
      ActionConfig.location, DeploymentsScope.type] at hloc
    rcases Option.isSome_iff_exists.mp (by simpa using hloc) with ⟨l, rfl⟩
    simp only [deploymentWhatIf, requireLocation, ActionConfig.location,
      Eff.bind_ok_left, Env.invoke, henv]
  | managementGroup t mg =>
    simp only [ActionConfig.hasRequiredLocation, ActionConfig.scopeType,
      ActionConfig.location, DeploymentsScope.type] at hloc
    rcases Option.isSome_iff_exists.mp (by simpa using hloc) with ⟨l, rfl⟩
    simp only [deploymentWhatIf, requireLocation, ActionConfig.location,
      Eff.bind_ok_left, Env.invoke, henv]
  | tenant t =>
    simp only [ActionConfig.hasRequiredLocation, ActionConfig.scopeType,
      ActionConfig.location, DeploymentsScope.type] at hloc
    rcases Option.isSome_iff_exists.mp (by simpa using hloc) with ⟨l, rfl⟩
    simp only [deploymentWhatIf, requireLocation, ActionConfig.location,
      Eff.bind_ok_left, Env.invoke, henv]

theorem deploymentWhatIf_noLocation (env : Env) (c : DeploymentsConfig)
    (files : ParsedFiles) (hloc : c.location = none)
    (hs : c.scope.type ≠ ScopeType.resourceGroup) :
    deploymentWhatIf env c files =
      ([], Except.error (JsError.error "Location is required")) := by
  obtain ⟨op, nm, scope, loc, tags, mo⟩ := c
  replace hloc : loc = none := hloc
  subst hloc
  cases scope with
  | resourceGroup s t rg => exact absurd rfl hs
  | subscription s t =>
    simp only [deploymentWhatIf, requireLocation, ActionConfig.location,
      Eff.raise, Eff.bind_pair_error]
  | managementGroup t mg =>
    simp only [deploymentWhatIf, requireLocation, ActionConfig.location,
      Eff.raise, Eff.bind_pair_error]
  | tenant t =>
    simp only [deploymentWhatIf, requireLocation, ActionConfig.location,
      Eff.raise, Eff.bind_pair_error]

theorem remoteCalls_stackCreate (env : Env) (c : DeploymentStackConfig)
    (files : ParsedFiles)
    (hloc : (ActionConfig.deploymentStack c).hasRequiredLocation = true) :
    (remoteCalls (stackCreate env c files)).length = 1 := by
  obtain ⟨op, nm, scope, loc, tags, mo, de, ao, dn, bp⟩ := c
  cases scope with
  | resourceGroup s t rg =>
    simp only [stackCreate]
    rw [remoteCalls_invoke]
    rfl
  | subscription s t =>
    simp only [ActionConfig.hasRequiredLocation, ActionConfig.scopeType,
      ActionConfig.location, StackScope.type] at hloc
    rcases Option.isSome_iff_exists.mp (by simpa using hloc) with ⟨l, rfl⟩
    simp only [stackCreate, requireLocation, ActionConfig.location,
      Eff.bind_ok_left]
    rw [remoteCalls_invoke]
    rfl
  | managementGroup t mg =>
    simp only [ActionConfig.hasRequiredLocation, ActionConfig.scopeType,
      ActionConfig.location, StackScope.type] at hloc
    rcases Option.isSome_iff_exists.mp (by simpa using hloc) with ⟨l, rfl⟩
    simp only [stackCreate, requireLocation, ActionConfig.location,
      Eff.bind_ok_left]
    rw [remoteCalls_invoke]
    rfl

theorem stackCreate_fail (env : Env) (c : DeploymentStackConfig)
    (files : ParsedFiles) (ex : JsError)
    (henv : ∀ rc, env.call rc = Except.error ex)
    (hloc : (ActionConfig.deploymentStack c).hasRequiredLocation = true) :
    (stackCreate env c files).2 = Except.error ex := by
  obtain ⟨op, nm, scope, loc, tags, mo, de, ao, dn, bp⟩ := c
  cases scope with
  | resourceGroup s t rg =>
    simp only [stackCreate, Env.invoke, henv]
  | subscription s t =>
    simp only [ActionConfig.hasRequiredLocation, ActionConfig.scopeType,
      ActionConfig.location, StackScope.type] at hloc
    rcases Option.isSome_iff_exists.mp (by simpa using hloc) with ⟨l, rfl⟩
    simp only [stackCreate, requireLocation, ActionConfig.location,
      Eff.bind_ok_left, Env.invoke, henv]
  | managementGroup t mg =>
    simp only [ActionConfig.hasRequiredLocation, ActionConfig.scopeType,
      ActionConfig.location, StackScope.type] at hloc
    rcases Option.isSome_iff_exists.mp (by simpa using hloc) with ⟨l, rfl⟩
    simp only [stackCreate, requireLocation, ActionConfig.location,
      Eff.bind_ok_left, Env.invoke, henv]

theorem stackCreate_noLocation (env : Env) (c : DeploymentStackConfig)
    (files : ParsedFiles) (hloc : c.location = none)
    (hs : c.scope.type ≠ ScopeType.resourceGroup) :
    stackCreate env c files =
      ([], Except.error (JsError.error "Location is required")) := by
  obtain ⟨op, nm, scope, loc, tags, mo, de, ao, dn, bp⟩ := c
  replace hloc : loc = none := hloc
  subst hloc
  cases scope with
  | resourceGroup s t rg => exact absurd rfl hs
  | subscription s t =>
    simp only [stackCreate, requireLocation, ActionConfig.location,
      Eff.raise, Eff.bind_pair_error]
  | managementGroup t mg =>
    simp only [stackCreate, requireLocation, ActionConfig.location,
      Eff.raise, Eff.bind_pair_error]

theorem remoteCalls_stackValidate (env : Env) (c : DeploymentStackConfig)
    (files : ParsedFiles)
    (hloc : (ActionConfig.deploymentStack c).hasRequiredLocation = true) :
    (remoteCalls (stackValidate env c files)).length = 1 := by
  obtain ⟨op, nm, scope, loc, tags, mo, de, ao, dn, bp⟩ := c
  cases scope with
  | resourceGroup s t rg =>
    simp only [stackValidate]
    rw [remoteCalls_invoke]
    rfl
  | subscription s t =>
    simp only [ActionConfig.hasRequiredLocation, ActionConfig.scopeType,
      ActionConfig.location, StackScope.type] at hloc
    rcases Option.isSome_iff_exists.mp (by simpa using hloc) with ⟨l, rfl⟩
    simp only [stackValidate, requireLocation, ActionConfig.location,
      Eff.bind_ok_left]
    rw [remoteCalls_invoke]
    rfl
  | managementGroup t mg =>
    simp only [ActionConfig.hasRequiredLocation, ActionConfig.scopeType,
      ActionConfig.location, StackScope.type] at hloc
    rcases Option.isSome_iff_exists.mp (by simpa using hloc) with ⟨l, rfl⟩
    simp only [stackValidate, requireLocation, ActionConfig.location,
      Eff.bind_ok_left]
    rw [remoteCalls_invoke]
    rfl

theorem stackValidate_fail (env : Env) (c : DeploymentStackConfig)
    (files : ParsedFiles) (ex : JsError)
    (henv : ∀ rc, env.call rc = Except.error ex)
    (hloc : (ActionConfig.deploymentStack c).hasRequiredLocation = true) :
    (stackValidate env c files).2 = Except.error ex := by
  obtain ⟨op, nm, scope, loc, tags, mo, de, ao, dn, bp⟩ := c
  cases scope with
  | resourceGroup s t rg =>
    simp only [stackValidate, Env.invoke, henv]
  | subscription s t =>
    simp only [ActionConfig.hasRequiredLocation, ActionConfig.scopeType,
      ActionConfig.location, StackScope.type] at hloc
    rcases Option.isSome_iff_exists.mp (by simpa using hloc) with ⟨l, rfl⟩
    simp only [stackValidate, requireLocation, ActionConfig.location,
      Eff.bind_ok_left, Env.invoke, henv]
  | managementGroup t mg =>
    simp only [ActionConfig.hasRequiredLocation, ActionConfig.scopeType,
      ActionConfig.location, StackScope.type] at hloc
    rcases Option.isSome_iff_exists.mp (by simpa using hloc) with ⟨l, rfl⟩
    simp only [stackValidate, requireLocation, ActionConfig.location,
      Eff.bind_ok_left, Env.invoke, henv]

theorem stackValidate_noLocation (env : Env) (c : DeploymentStackConfig)
    (files : ParsedFiles) (hloc : c.location = none)
    (hs : c.scope.type ≠ ScopeType.resourceGroup) :
    stackValidate env c files =
      ([], Except.error (JsError.error "Location is required")) := by
  obtain ⟨op, nm, scope, loc, tags, mo, de, ao, dn, bp⟩ := c
  replace hloc : loc = none := hloc
  subst hloc
  cases scope with
  | resourceGroup s t rg => exact absurd rfl hs
  | subscription s t =>
    simp only [stackValidate, requireLocation, ActionConfig.location,
      Eff.raise, Eff.bind_pair_error]
  | managementGroup t mg =>
    simp only [stackValidate, requireLocation, ActionConfig.location,
      Eff.raise, Eff.bind_pair_error]

theorem remoteCalls_stackDelete (env : Env) (c : DeploymentStackConfig) :
    (remoteCalls (stackDelete env c)).length = 1 := by
  obtain ⟨op, nm, scope, loc, tags, mo, de, ao, dn, bp⟩ := c
  cases scope with
  | resourceGroup s t rg =>
    simp only [stackDelete]
    rw [remoteCalls_invoke]
    rfl
  | subscription s t =>
    simp only [stackDelete]
    rw [remoteCalls_invoke]
    rfl
  | managementGroup t mg =>
    simp only [stackDelete]
    rw [remoteCalls_invoke]
    rfl

theorem stackDelete_fail (env : Env) (c : DeploymentStackConfig)
    (ex : JsError) (henv : ∀ rc, env.call rc = Except.error ex) :
    (stackDelete env c).2 = Except.error ex := by
  obtain ⟨op, nm, scope, loc, tags, mo, de, ao, dn, bp⟩ := c
  cases scope with
  | resourceGroup s t rg => simp only [stackDelete, Env.invoke, henv]
  | subscription s t => simp only [stackDelete, Env.invoke, henv]
  | managementGroup t mg => simp only [stackDelete, Env.invoke, henv]


/-- Is the configured operation a create? -/
def isCreateOp : ActionConfig → Bool
  | ActionConfig.deployment c => c.operation == DeploymentOperation.create
  | ActionConfig.deploymentStack c => c.operation == StackOperation.create

/-- Is the configured operation a validate? -/
def isValidateOp : ActionConfig → Bool
  | ActionConfig.deployment c => c.operation == DeploymentOperation.validate
  | ActionConfig.deploymentStack c => c.operation == StackOperation.validate

/-- Is the configured operation a stack delete? -/
def isDeleteOp : ActionConfig → Bool
  | ActionConfig.deployment _ => false
  | ActionConfig.deploymentStack c => c.operation == StackOperation.delete

theorem Eff.bind_liftExc_pure {α : Type} (f : Unit → Eff α) :
    Eff.bind (Eff.liftExc (Except.ok ())) f = f () := by
  show ([] ++ (f ()).1, (f ()).2) = f ()
  simp

theorem remoteCalls_emit (es : List Effect) :
    remoteCalls (Eff.emit es) = es.filterMap Effect.remoteOf := rfl

theorem remoteCalls_execute_one (env : Env) (config : ActionConfig)
    (files : ParsedFiles)
    (hv : validateFileScope config files = Except.ok ())
    (hloc : config.hasRequiredLocation = true) :
    (remoteCalls (execute env config files)).length = 1 := by
  rw [remoteCalls_execute]
  rcases config with c | c
  · cases hc : c.operation with
    | create =>
      have h1 : remoteCalls (executeBody env (ActionConfig.deployment c) files)
          = remoteCalls (deploymentCreate env c files) := by
        simp only [executeBody, hv, Eff.bind_liftExc_pure, hc]
        rw [remoteCalls_bind_const_nil, remoteCalls_tryWEH,
          remoteCalls_bind_const_nil]
        · intro a
          rw [remoteCalls_emit, setCreateOutputs_no_remote]
        · intro e
          exact domainOnError_no_remote _ e
        · intro a
          exact remoteCalls_ok ()
      rw [h1]
      exact remoteCalls_deploymentCreate env c files hloc
    | validate =>
      have h1 : remoteCalls (executeBody env (ActionConfig.deployment c) files)
          = remoteCalls (deploymentValidate env c files) := by
        simp only [executeBody, hv, Eff.bind_liftExc_pure, hc]
        rw [remoteCalls_bind_const_nil, remoteCalls_tryWEH]
        · intro e
          exact domainOnError_no_remote _ e
        · intro a
          exact remoteCalls_ok ()
      rw [h1]
      exact remoteCalls_deploymentValidate env c files hloc
    | whatIf =>
      have h1 : remoteCalls (executeBody env (ActionConfig.deployment c) files)
          = remoteCalls (deploymentWhatIf env c files) := by
        simp only [executeBody, hv, Eff.bind_liftExc_pure, hc]
        rw [remoteCalls_bind_const_nil]
        intro a
        rfl
      rw [h1]
      exact remoteCalls_deploymentWhatIf env c files hloc
  · cases hc : c.operation with
    | create =>
      have h1 : remoteCalls
            (executeBody env (ActionConfig.deploymentStack c) files)
          = remoteCalls (stackCreate env c files) := by
        simp only [executeBody, hv, Eff.bind_liftExc_pure, hc]
        rw [remoteCalls_bind_const_nil, remoteCalls_tryWEH,
          remoteCalls_bind_const_nil]
        · intro a
          rw [remoteCalls_emit, setCreateOutputs_no_remote]
        · intro e
          exact domainOnError_no_remote _ e
        · intro a
          exact remoteCalls_ok ()
      rw [h1]
      exact remoteCalls_stackCreate env c files hloc
    | validate =>
      have h1 : remoteCalls
            (executeBody env (ActionConfig.deploymentStack c) files)
          = remoteCalls (stackValidate env c files) := by
        simp only [executeBody, hv, Eff.bind_liftExc_pure, hc]
        rw [remoteCalls_bind_const_nil, remoteCalls_tryWEH]
        · intro e
          exact domainOnError_no_remote _ e
        · intro a
          exact remoteCalls_ok ()
      rw [h1]
      exact remoteCalls_stackValidate env c files hloc
    | delete =>
      have h1 : remoteCalls
            (executeBody env (ActionConfig.deploymentStack c) files)
          = remoteCalls (stackDelete env c) := by
        simp only [executeBody, hv, Eff.bind_liftExc_pure, hc]
        rw [remoteCalls_bind_const_nil]
        intro a
        exact remoteCalls_ok ()
      rw [h1]
      exact remoteCalls_stackDelete env c

/-- Claim C3: a create or validate operation whose remote call fails
with a transport error carrying a structured service error body logs
the structured error, marks the run failed with the domain-specific
message ("Create failed" resp. "Validation failed"), and the exception
does not propagate past the operation boundary (`execute` does not
re-raise it). -/
theorem c3_structured_error_handled (env : Env) (config : ActionConfig)
    (files : ParsedFiles) (resp : Option RestResponse) (e : ErrorResponse)
    (hop : isCreateOp config = true ∨ isValidateOp config = true)
    (hv : validateFileScope config files = Except.ok ())
    (hloc : config.hasRequiredLocation = true)
    (henv : ∀ rc, env.call rc =
      Except.error (JsError.restError resp { error := some e })) :
    (execute env config files).2 = Except.ok () ∧
    Effect.logError (stringifyErrorResponse e) ∈ (execute env config files).1 ∧
    (isCreateOp config = true →
      Effect.setFailed "Create failed" ∈ (execute env config files).1) ∧
    (isValidateOp config = true →
      Effect.setFailed "Validation failed" ∈ (execute env config files).1) := by
  rcases config with c | c
  · cases hc : c.operation with
    | create =>
      have hfail := deploymentCreate_fail env c files _ henv hloc
      rcases hA : deploymentCreate env c files with ⟨es, r⟩
      rw [hA] at hfail
      replace hfail : r = Except.error
        (JsError.restError resp { error := some e }) := hfail
      subst hfail
      have hb : executeBody env (ActionConfig.deployment c) files =
          (es ++ innerCorrelationLog resp :: domainOnError "Create failed" e,
            Except.ok ()) := by
        simp only [executeBody, hv, Eff.bind_liftExc_pure, hc, hA,
          Eff.bind_pair_error, tryWEH_pair_structured, Eff.bind_pair_ok,
          Eff.ok, List.append_nil]
      rw [execute_of_body_ok _ _ _ _ _ hb]
      refine ⟨rfl, ?_, ?_, ?_⟩
      · simp [domainOnError]
      · intro _
        simp [domainOnError]
      · intro h
        simp [isValidateOp, hc] at h
    | validate =>
      have hfail := deploymentValidate_fail env c files _ henv hloc
      rcases hA : deploymentValidate env c files with ⟨es, r⟩
      rw [hA] at hfail
      replace hfail : r = Except.error
        (JsError.restError resp { error := some e }) := hfail
      subst hfail
      have hb : executeBody env (ActionConfig.deployment c) files =
          (es ++ innerCorrelationLog resp ::
              domainOnError "Validation failed" e,
            Except.ok ()) := by
        simp only [executeBody, hv, Eff.bind_liftExc_pure, hc, hA,
          tryWEH_pair_structured, Eff.bind_pair_ok, Eff.ok, List.append_nil]
      rw [execute_of_body_ok _ _ _ _ _ hb]
      refine ⟨rfl, ?_, ?_, ?_⟩
      · simp [domainOnError]
      · intro h
        simp [isCreateOp, hc] at h
      · intro _
        simp [domainOnError]
    | whatIf =>
      rcases hop with h | h <;> simp [isCreateOp, isValidateOp, hc] at h
  · cases hc : c.operation with
    | create =>
      have hfail := stackCreate_fail env c files _ henv hloc
      rcases hA : stackCreate env c files with ⟨es, r⟩
      rw [hA] at hfail
      replace hfail : r = Except.error
        (JsError.restError resp { error := some e }) := hfail
      subst hfail
      have hb : executeBody env (ActionConfig.deploymentStack c) files =
          (es ++ innerCorrelationLog resp :: domainOnError "Create failed" e,
            Except.ok ()) := by
        simp only [executeBody, hv, Eff.bind_liftExc_pure, hc, hA,
          Eff.bind_pair_error, tryWEH_pair_structured, Eff.bind_pair_ok,
          Eff.ok, List.append_nil]
      rw [execute_of_body_ok _ _ _ _ _ hb]
      refine ⟨rfl, ?_, ?_, ?_⟩
      · simp [domainOnError]
      · intro _
        simp [domainOnError]
      · intro h
        simp [isValidateOp, hc] at h
    | validate =>
      have hfail := stackValidate_fail env c files _ henv hloc
      rcases hA : stackValidate env c files with ⟨es, r⟩
      rw [hA] at hfail
      replace hfail : r = Except.error
        (JsError.restError resp { error := some e }) := hfail
      subst hfail
      have hb : executeBody env (ActionConfig.deploymentStack c) files =
          (es ++ innerCorrelationLog resp ::
              domainOnError "Validation failed" e,
            Except.ok ()) := by
        simp only [executeBody, hv, Eff.bind_liftExc_pure, hc, hA,
          tryWEH_pair_structured, Eff.bind_pair_ok, Eff.ok, List.append_nil]
      rw [execute_of_body_ok _ _ _ _ _ hb]
      refine ⟨rfl, ?_, ?_, ?_⟩
      · simp [domainOnError]
      · intro h
        simp [isCreateOp, hc] at h
      · intro _
        simp [domainOnError]
    | delete =>
      rcases hop with h | h <;> simp [isCreateOp, isValidateOp, hc] at h

/-- Would the inner error translator swallow this error?  Only a
`RestError` whose details carry a structured service error body is
handled. -/
def handledByInner : JsError → Bool
  | JsError.restError _ details => details.error.isSome
  | JsError.error _ => false

theorem tryWEH_pair_unhandled {α : Type} (es : List Effect) (ex : JsError)
    (onError : ErrorResponse → List Effect)
    (hnh : handledByInner ex = false) :
    ∃ es2, tryWithErrorHandling ((es, Except.error ex) : Eff α) onError =
      (es2, Except.error ex) := by
  cases ex with
  | error m => exact ⟨es, tryWEH_pair_plain es m onError⟩
  | restError resp details =>
    obtain ⟨oe⟩ := details
    cases oe with
    | some e => simp [handledByInner] at hnh
    | none =>
      exact ⟨es ++ [innerCorrelationLog resp],
        tryWEH_pair_unstructured es resp onError⟩

theorem execute_failed_conclusions (env : Env) (config : ActionConfig)
    (files : ParsedFiles) (ex : JsError) (es2 : List Effect)
    (hb : executeBody env config files = (es2, Except.error ex)) :
    (execute env config files).2 = Except.error ex ∧
    Effect.setFailed "Operation failed" ∈ (execute env config files).1 ∧
    (∀ resp d t, ex = JsError.restError (some resp) d →
      resp.bodyAsText = some t → t ≠ "" →
      Effect.logError ("Request failed. CorrelationId: " ++
          jsUndef (headerGet resp.headers "x-ms-correlation-request-id")) ∈
        (execute env config files).1 ∧
      Effect.logError (prettyJson t) ∈ (execute env config files).1) := by
  rw [execute_of_body_error _ _ _ _ _ hb]
  refine ⟨rfl, by simp, ?_⟩
  intro resp d t hex hbt hne
  subst hex
  have hlogs : topLevelLogs (JsError.restError (some resp) d) =
      [Effect.logError ("Request failed. CorrelationId: " ++
          jsUndef (headerGet resp.headers "x-ms-correlation-request-id")),
        Effect.logError (prettyJson t)] := by
    simp [topLevelLogs, hbt, hne]
  constructor <;> simp [hlogs]

/-- Claim C4: an error that is not a transport error carrying a
parseable structured service body — a `RestError` without structured
details, any error from stack delete or what-if, or a plain unexpected
exception — reaches `execute`'s top-level handler, which logs the
correlation id and raw body when available, marks the run failed with
"Operation failed", and re-raises the error. -/
theorem c4_unhandled_error_propagates (env : Env) (config : ActionConfig)
    (files : ParsedFiles) (ex : JsError)
    (hv : validateFileScope config files = Except.ok ())
    (hloc : config.hasRequiredLocation = true)
    (hnh : handledByInner ex = false)
    (henv : ∀ rc, env.call rc = Except.error ex) :
    (execute env config files).2 = Except.error ex ∧
    Effect.setFailed "Operation failed" ∈ (execute env config files).1 ∧
    (∀ resp d t, ex = JsError.restError (some resp) d →
      resp.bodyAsText = some t → t ≠ "" →
      Effect.logError ("Request failed. CorrelationId: " ++
          jsUndef (headerGet resp.headers "x-ms-correlation-request-id")) ∈
        (execute env config files).1 ∧
      Effect.logError (prettyJson t) ∈ (execute env config files).1) := by
  rcases config with c | c
  · cases hc : c.operation with
    | create =>
      have hfail := deploymentCreate_fail env c files ex henv hloc
      rcases hA : deploymentCreate env c files with ⟨es, r⟩
      rw [hA] at hfail
      replace hfail : r = Except.error ex := hfail
      subst hfail
      obtain ⟨es2, ht⟩ :=
        tryWEH_pair_unhandled (α := Unit) es ex (domainOnError "Create failed") hnh
      refine execute_failed_conclusions env _ files ex es2 ?_
      simp only [executeBody, hv, Eff.bind_liftExc_pure, hc, hA,
        Eff.bind_pair_error, ht]
    | validate =>
      have hfail := deploymentValidate_fail env c files ex henv hloc
      rcases hA : deploymentValidate env c files with ⟨es, r⟩
      rw [hA] at hfail
      replace hfail : r = Except.error ex := hfail
      subst hfail
      obtain ⟨es2, ht⟩ := tryWEH_pair_unhandled (α := Option RemoteResult)
        es ex (domainOnError "Validation failed") hnh
      refine execute_failed_conclusions env _ files ex es2 ?_
      simp only [executeBody, hv, Eff.bind_liftExc_pure, hc, hA, ht,
        Eff.bind_pair_error]
    | whatIf =>
      have hfail := deploymentWhatIf_fail env c files ex henv hloc
      rcases hA : deploymentWhatIf env c files with ⟨es, r⟩
      rw [hA] at hfail
      replace hfail : r = Except.error ex := hfail
      subst hfail
      refine execute_failed_conclusions env _ files ex es ?_
      simp only [executeBody, hv, Eff.bind_liftExc_pure, hc, hA,
        Eff.bind_pair_error]
  · cases hc : c.operation with
    | create =>
      have hfail := stackCreate_fail env c files ex henv hloc
      rcases hA : stackCreate env c files with ⟨es, r⟩
      rw [hA] at hfail
      replace hfail : r = Except.error ex := hfail
      subst hfail
      obtain ⟨es2, ht⟩ :=
        tryWEH_pair_unhandled (α := Unit) es ex (domainOnError "Create failed") hnh
      refine execute_failed_conclusions env _ files ex es2 ?_
      simp only [executeBody, hv, Eff.bind_liftExc_pure, hc, hA,
        Eff.bind_pair_error, ht]
    | validate =>
      have hfail := stackValidate_fail env c files ex henv hloc
      rcases hA : stackValidate env c files with ⟨es, r⟩
      rw [hA] at hfail
      replace hfail : r = Except.error ex := hfail
      subst hfail
      obtain ⟨es2, ht⟩ := tryWEH_pair_unhandled (α := RemoteResult)
        es ex (domainOnError "Validation failed") hnh
      refine execute_failed_conclusions env _ files ex es2 ?_
      simp only [executeBody, hv, Eff.bind_liftExc_pure, hc, hA, ht,
        Eff.bind_pair_error]
    | delete =>
      have hfail := stackDelete_fail env c ex henv
      rcases hA : stackDelete env c with ⟨es, r⟩
      rw [hA] at hfail
      replace hfail : r = Except.error ex := hfail
      subst hfail
      refine execute_failed_conclusions env _ files ex es ?_
      simp only [executeBody, hv, Eff.bind_liftExc_pure, hc, hA,
        Eff.bind_pair_error]

/-- Claim C2: for both resource kinds, every operation of that kind and
every scope variant, a run whose parsed files pass scope validation (and
whose configuration carries the location its scope requires, as the
upstream input validation guarantees) invokes exactly one remote
operation: never zero and never more than one. -/
theorem c2_exactly_one_remote_call (env : Env) (config : ActionConfig)
    (files : ParsedFiles)
    (hv : validateFileScope config files = Except.ok ())
    (hloc : config.hasRequiredLocation = true) :
    (remoteCalls (execute env config files)).length = 1 :=
  remoteCalls_execute_one env config files hv hloc

/-- Claim C5 is proved here in its amended form: for tenant,
managementGroup and subscription scopes with no configured location,
every deployment operation and stack create/validate fail with the
`MissingLocation` error ("Location is required") before any remote
operation is invoked; stack delete reads no location and still invokes
its remote operation; for resourceGroup scope no location is
required. -/
theorem c5_missing_location_amended (env : Env) (config : ActionConfig)
    (files : ParsedFiles)
    (hv : validateFileScope config files = Except.ok ())
    (hloc : config.location = none) :
    (config.scopeType ≠ ScopeType.resourceGroup → isDeleteOp config = false →
      remoteCalls (execute env config files) = [] ∧
      (execute env config files).2 =
        Except.error (JsError.error "Location is required")) ∧
    (config.scopeType = ScopeType.resourceGroup ∨ isDeleteOp config = true →
      (remoteCalls (execute env config files)).length = 1) := by
  constructor
  · intro hscope hdel
    rcases config with c | c
    · cases hc : c.operation with
      | create =>
        have hO := deploymentCreate_noLocation env c files hloc hscope
        have hb : executeBody env (ActionConfig.deployment c) files =
            ([], Except.error (JsError.error "Location is required")) := by
          simp only [executeBody, hv, Eff.bind_liftExc_pure, hc, hO,
            Eff.bind_pair_error, tryWEH_pair_plain]
        rw [execute_of_body_error _ _ _ _ _ hb]
        exact ⟨rfl, rfl⟩
      | validate =>
        have hO := deploymentValidate_noLocation env c files hloc hscope
        have hb : executeBody env (ActionConfig.deployment c) files =
            ([], Except.error (JsError.error "Location is required")) := by
          simp only [executeBody, hv, Eff.bind_liftExc_pure, hc, hO,
            Eff.bind_pair_error, tryWEH_pair_plain]
        rw [execute_of_body_error _ _ _ _ _ hb]
        exact ⟨rfl, rfl⟩
      | whatIf =>
        have hO := deploymentWhatIf_noLocation env c files hloc hscope
        have hb : executeBody env (ActionConfig.deployment c) files =
            ([], Except.error (JsError.error "Location is required")) := by
          simp only [executeBody, hv, Eff.bind_liftExc_pure, hc, hO,
            Eff.bind_pair_error]
        rw [execute_of_body_error _ _ _ _ _ hb]
        exact ⟨rfl, rfl⟩
    · cases hc : c.operation with
      | create =>
        have hO := stackCreate_noLocation env c files hloc hscope
        have hb : executeBody env (ActionConfig.deploymentStack c) files =
            ([], Except.error (JsError.error "Location is required")) := by
          simp only [executeBody, hv, Eff.bind_liftExc_pure, hc, hO,
            Eff.bind_pair_error, tryWEH_pair_plain]
        rw [execute_of_body_error _ _ _ _ _ hb]
        exact ⟨rfl, rfl⟩
      | validate =>
        have hO := stackValidate_noLocation env c files hloc hscope
        have hb : executeBody env (ActionConfig.deploymentStack c) files =
            ([], Except.error (JsError.error "Location is required")) := by
          simp only [executeBody, hv, Eff.bind_liftExc_pure, hc, hO,
            Eff.bind_pair_error, tryWEH_pair_plain]
        rw [execute_of_body_error _ _ _ _ _ hb]
        exact ⟨rfl, rfl⟩
      | delete => simp [isDeleteOp, hc] at hdel
  · intro hcase
    rcases hcase with hrg | hdel
    · refine remoteCalls_execute_one env config files hv ?_
      simp [ActionConfig.hasRequiredLocation, hrg]
    · rcases config with c | c
      · simp [isDeleteOp] at hdel
      · have hc : c.operation = StackOperation.delete := by
          simpa [isDeleteOp] using hdel
        rw [remoteCalls_execute]
        have h1 : remoteCalls
              (executeBody env (ActionConfig.deploymentStack c) files)
            = remoteCalls (stackDelete env c) := by
          simp only [executeBody, hv, Eff.bind_liftExc_pure, hc]
          rw [remoteCalls_bind_const_nil]
          intro a
          exact remoteCalls_ok ()
        rw [h1]
        exact remoteCalls_stackDelete env c

theorem topLevelLogs_no_setOutput (err : JsError) (k v : String) :
    Effect.setOutput k v ∉ topLevelLogs err := by
  cases err with
  | error m => simp [topLevelLogs]
  | restError resp details =>
    cases resp with
    | none => simp [topLevelLogs]
    | some r =>
      obtain ⟨hs, bt⟩ := r
      cases bt with
      | none => simp [topLevelLogs]
      | some t =>
        simp only [topLevelLogs]
        by_cases h : t = "" <;> simp [h]

theorem not_mem_bind_invoke_fst {α : Type} (env : Env) (rc : RemoteCall)
    (k : RemoteResult → Eff α) (e : Effect)
    (hre : e ≠ Effect.remote rc) (hk : ∀ r, e ∉ (k r).1) :
    e ∉ (Eff.bind (env.invoke rc) k).1 := by
  cases h : env.call rc with
  | ok a =>
    show e ∉ (Eff.bind ([Effect.remote rc], env.call rc) k).1
    rw [h]
    simp only [Eff.bind, List.cons_append, List.nil_append, List.mem_cons]
    rintro (h1 | h1)
    · exact hre h1
    · exact hk a h1
  | error er =>
    show e ∉ (Eff.bind ([Effect.remote rc], env.call rc) k).1
    rw [h]
    simp only [Eff.bind, List.mem_singleton]
    exact hre

theorem deploymentCreate_no_setOutput (env : Env) (c : DeploymentsConfig)
    (files : ParsedFiles) (k v : String) :
    Effect.setOutput k v ∉ (deploymentCreate env c files).1 := by
  obtain ⟨op, nm, scope, loc, tags, mo⟩ := c
  cases scope with
  | resourceGroup s t rg =>
    simp only [deploymentCreate]
    apply not_mem_bind_invoke_fst
    · simp
    · intro r
      simp [Eff.ok]
  | subscription s t =>
    cases loc with
    | none => simp [deploymentCreate, requireLocation, ActionConfig.location,
        Eff.raise, Eff.bind_pair_error]
    | some l =>
      simp only [deploymentCreate, requireLocation, ActionConfig.location,
        Eff.bind_ok_left]
      apply not_mem_bind_invoke_fst
      · simp
      · intro r
        simp [Eff.ok]
  | managementGroup t mg =>
    cases loc with
    | none => simp [deploymentCreate, requireLocation, ActionConfig.location,
        Eff.raise, Eff.bind_pair_error]
    | some l =>
      simp only [deploymentCreate, requireLocation, ActionConfig.location,
        Eff.bind_ok_left]
      apply not_mem_bind_invoke_fst
      · simp
      · intro r
        simp [Eff.ok]
  | tenant t =>
    cases loc with
    | none => simp [deploymentCreate, requireLocation, ActionConfig.location,
        Eff.raise, Eff.bind_pair_error]
    | some l =>
      simp only [deploymentCreate, requireLocation, ActionConfig.location,
        Eff.bind_ok_left]
      apply not_mem_bind_invoke_fst
      · simp
      · intro r
        simp [Eff.ok]

theorem snd_bind_invoke_const {α : Type} (env : Env) (rc : RemoteCall)
    (y r : α)
    (hr : (Eff.bind (env.invoke rc) (fun _ => Eff.ok y)).2 = Except.ok r) :
    r = y := by
  rw [show env.invoke rc = ([Effect.remote rc], env.call rc) from rfl] at hr
  cases h : env.call rc with
  | ok a =>
    rw [h] at hr
    rw [Eff.bind_pair_ok] at hr
    exact (by simpa [Eff.ok] using hr.symm : r = y)
  | error er =>
    rw [h] at hr
    rw [Eff.bind_pair_error] at hr
    exact absurd hr (by simp)

/-- Claim C10: for a deployment create at tenant scope,
`deploymentCreate` discards the remote result (the tenant branch awaits
without returning, yielding `undefined`), so `execute` writes no action
output for tenant-scope creates even when the remote operation returns
outputs. -/
theorem c10_tenant_create_discards_outputs (env : Env)
    (c : DeploymentsConfig) (files : ParsedFiles) (tid : String)
    (hop : c.operation = DeploymentOperation.create)
    (hscope : c.scope = DeploymentsScope.tenant tid) :
    (∀ r, (deploymentCreate env c files).2 = Except.ok r → r = none) ∧
    (∀ k v, Effect.setOutput k v ∉
      (execute env (ActionConfig.deployment c) files).1) := by
  have h1 : ∀ r, (deploymentCreate env c files).2 = Except.ok r →
      r = none := by
    intro r hr
    obtain ⟨op, nm, scope, loc, tags, mo⟩ := c
    replace hscope : scope = DeploymentsScope.tenant tid := hscope
    subst hscope
    cases loc with
    | none =>
      simp [deploymentCreate, requireLocation, ActionConfig.location,
        Eff.raise, Eff.bind_pair_error] at hr
    | some l =>
      simp only [deploymentCreate, requireLocation, ActionConfig.location,
        Eff.bind_ok_left] at hr
      exact snd_bind_invoke_const env _ none r hr
  refine ⟨h1, ?_⟩
  intro k v
  cases hv : validateFileScope (ActionConfig.deployment c) files with
  | error e =>
    have hb : executeBody env (ActionConfig.deployment c) files =
        ([], Except.error e) := by
      simp only [executeBody, hv, Eff.liftExc, Eff.bind_pair_error]
    rw [execute_of_body_error _ _ _ _ _ hb]
    simp [topLevelLogs_no_setOutput e k v]
  | ok u =>
    cases u
    have hes0 := deploymentCreate_no_setOutput env c files k v
    rcases hA : deploymentCreate env c files with ⟨es, r⟩
    rw [hA] at hes0
    replace hes0 : Effect.setOutput k v ∉ es := hes0
    cases r with
    | ok a =>
      have ha : a = none := h1 a (by rw [hA])
      subst ha
      have hb : executeBody env (ActionConfig.deployment c) files =
          (es, Except.ok ()) := by
        simp only [executeBody, hv, Eff.bind_liftExc_pure, hop, hA,
          Eff.bind_pair_ok, outputsOf, Option.none_bind, setCreateOutputs,
          Eff.emit, List.append_nil, tryWEH_pair_ok, Eff.ok]
      rw [execute_of_body_ok _ _ _ _ _ hb]
      exact hes0
    | error e2 =>
      cases e2 with
      | restError resp details =>
        obtain ⟨oe⟩ := details
        cases oe with
        | some err =>
          have hb : executeBody env (ActionConfig.deployment c) files =
              (es ++ innerCorrelationLog resp ::
                  domainOnError "Create failed" err,
                Except.ok ()) := by
            simp only [executeBody, hv, Eff.bind_liftExc_pure, hop, hA,
              Eff.bind_pair_error, tryWEH_pair_structured, Eff.bind_pair_ok,
              Eff.ok, List.append_nil]
          rw [execute_of_body_ok _ _ _ _ _ hb]
          simp [domainOnError, innerCorrelationLog, hes0]
        | none =>
          have hb : executeBody env (ActionConfig.deployment c) files =
              (es ++ [innerCorrelationLog resp],
                Except.error (JsError.restError resp { error := none })) := by
            simp only [executeBody, hv, Eff.bind_liftExc_pure, hop, hA,
              Eff.bind_pair_error, tryWEH_pair_unstructured]
          rw [execute_of_body_error _ _ _ _ _ hb]
          simp [innerCorrelationLog, hes0,
            topLevelLogs_no_setOutput (JsError.restError resp { error := none }) k v]
      | error m =>
        have hb : executeBody env (ActionConfig.deployment c) files =
            (es, Except.error (JsError.error m)) := by
          simp only [executeBody, hv, Eff.bind_liftExc_pure, hop, hA,
            Eff.bind_pair_error, tryWEH_pair_plain]
        rw [execute_of_body_error _ _ _ _ _ hb]
        simp [hes0, topLevelLogs_no_setOutput (JsError.error m) k v]

/-- Claim C1 is proved here in its amended form: when a template-spec
identifier is present, the request bodies built by `getDeployment` and
`getStack` carry the template-spec reference (`templateLink.id`);
inline template contents are carried exactly when the parsed files
carry `templateContents`, so the body carries only the reference — and
no inline contents — precisely when `templateContents` is absent (the
file parser, not the body builder, is what keeps the two exclusive). -/
theorem c1_template_link_amended (config : DeploymentsConfig)
    (sc : DeploymentStackConfig) (files : ParsedFiles) (tid : String)
    (hid : files.templateSpecId = some tid) :
    (getDeployment config files).properties.templateLink =
      some { id := tid } ∧
    (getDeployment config files).properties.template =
      files.templateContents ∧
    (getStack sc files).properties.templateLink = some { id := tid } ∧
    (getStack sc files).properties.template = files.templateContents ∧
    (files.templateContents = none →
      (getDeployment config files).properties.template = none ∧
      (getStack sc files).properties.template = none) := by
  refine ⟨by simp [getDeployment, hid], rfl,
    by simp [getStack, hid], rfl, ?_⟩
  intro h
  exact ⟨by simp [getDeployment, h], by simp [getStack, h]⟩

/-- Claim C6: a template carrying generator metadata whose `$schema`
matches the pattern with scope token lowering to `tenantdeployment`
infers the tenant scope; and whenever the inferred scope differs from
the configured scope type, `validateFileScope` fails with the
`ScopeMismatch` error naming both the inferred and the configured
scope. -/
theorem c6_tenant_schema_scope_mismatch (config : ActionConfig)
    (files : ParsedFiles)
    (hgen : jsTruthyStr
      (bicepGeneratorName (files.templateContents.getD emptyTemplate)) = true)
    (htok : (schemaScopeToken
        (files.templateContents.getD emptyTemplate).schema).map jsToLower =
      some "tenantdeployment")
    (hne : config.scopeType ≠ ScopeType.tenant) :
    getScope files = Except.ok (some ScopeType.tenant) ∧
    validateFileScope config files =
      Except.error (JsError.error
        (scopeMismatchMessage ScopeType.tenant config.scopeType)) := by
  have hg : getScope files = Except.ok (some ScopeType.tenant) := by
    simp [getScope, hgen, htok]
  refine ⟨hg, ?_⟩
  simp [validateFileScope, hg, Ne.symm hne]

/-- Claim C7: a template carrying generator metadata whose `$schema`
yields a captured scope token matching none of the four known tokens
makes scope inference fail with the `ScopeInferenceFailure` error, not
skip or infer a scope. -/
theorem c7_unknown_scope_token_fails (files : ParsedFiles) (tok : String)
    (hgen : jsTruthyStr
      (bicepGeneratorName (files.templateContents.getD emptyTemplate)) = true)
    (htok : (schemaScopeToken
        (files.templateContents.getD emptyTemplate).schema).map jsToLower =
      some tok)
    (hne : tok ≠ "tenantdeployment" ∧ tok ≠ "managementgroupdeployment" ∧
      tok ≠ "subscriptiondeployment" ∧ tok ≠ "deployment") :
    getScope files = Except.error
      (JsError.error "Failed to determine deployment scope from Bicep file.") := by
  obtain ⟨h1, h2, h3, h4⟩ := hne
  simp [getScope, hgen, htok, h1, h2, h3, h4]

/-- Claim C8: a template lacking the generator-metadata block
(`metadata._generator.name` absent) bypasses scope validation entirely
for every configured scope, regardless of the `$schema` value. -/
theorem c8_no_generator_skips_validation (config : ActionConfig)
    (files : ParsedFiles)
    (hgen : bicepGeneratorName (files.templateContents.getD emptyTemplate) =
      none) :
    validateFileScope config files = Except.ok () := by
  have hg : getScope files = Except.ok none := by
    simp [getScope, hgen, jsTruthyStr]
  simp [validateFileScope, hg]

/-- Claim C9: output projection writes every returned output entry
under its key; an entry whose key matches a masked-output name
case-insensitively is additionally registered as a secret; entries of
an all-unmasked output set register no secret; and projection is a
no-op when outputs is absent. -/
theorem c9_output_projection (config : ActionConfig)
    (outs : List (String × OutputValue)) (k : String) (v : OutputValue)
    (hmem : (k, v) ∈ outs) :
    setCreateOutputs config none = [] ∧
    Effect.setOutput k v.value ∈ setCreateOutputs config (some outs) ∧
    (maskedMatches config k = true →
      Effect.setSecret v.value ∈ setCreateOutputs config (some outs)) ∧
    ((∀ p ∈ outs, maskedMatches config p.1 = false) →
      ∀ sv, Effect.setSecret sv ∉ setCreateOutputs config (some outs)) := by
  refine ⟨rfl, ?_, ?_, ?_⟩
  · simp only [setCreateOutputs, List.mem_flatMap]
    exact ⟨(k, v), hmem, by simp⟩
  · intro hm
    simp only [setCreateOutputs, List.mem_flatMap]
    exact ⟨(k, v), hmem, by simp [hm]⟩
  · intro hall sv
    simp only [setCreateOutputs, List.mem_flatMap]
    rintro ⟨p, hp, hmemp⟩
    simp [hall p hp] at hmemp

/-! ### Witnesses and counterexamples at concrete inputs -/

/-- Counterexample to claim C1 as stated: parsed files carrying both
inline template contents and a template-spec id produce a request body
carrying the reference and the inline contents simultaneously. -/
theorem c1_counterexample :
    (getDeployment cfgDepValRG filesBoth).properties.templateLink =
      some { id := "ts-1" } ∧
    (getDeployment cfgDepValRG filesBoth).properties.template ≠ none := by
  constructor <;> decide

/-- Witness for the amended claim C1 at a concrete input. -/
theorem c1_witness :
    (getDeployment cfgDepValRG filesSpecOnly).properties.templateLink =
      some { id := "ts-1" } ∧
    (getDeployment cfgDepValRG filesSpecOnly).properties.template = none :=
  ⟨(c1_template_link_amended cfgDepValRG cfgStackDelSubNoLoc filesSpecOnly
      "ts-1" rfl).1,
    ((c1_template_link_amended cfgDepValRG cfgStackDelSubNoLoc filesSpecOnly
      "ts-1" rfl).2.2.2.2 rfl).1⟩

/-- Witness for claim C2 at a concrete input. -/
theorem c2_witness :
    (remoteCalls
      (execute envOk (ActionConfig.deployment cfgDepValRG) filesEmpty)).length
      = 1 :=
  c2_exactly_one_remote_call envOk (ActionConfig.deployment cfgDepValRG)
    filesEmpty (by decide) (by decide)

/-- Witness for claim C3 at a concrete input. -/
theorem c3_witness :
    (execute envStructErr (ActionConfig.deployment cfgDepValRG)
      filesEmpty).2 = Except.ok () ∧
    Effect.setFailed "Validation failed" ∈
      (execute envStructErr (ActionConfig.deployment cfgDepValRG)
        filesEmpty).1 := by
  have h := c3_structured_error_handled envStructErr
    (ActionConfig.deployment cfgDepValRG) filesEmpty (some respW) errRespW
    (Or.inr (by decide)) (by decide) (by decide) (fun rc => rfl)
  exact ⟨h.1, h.2.2.2 (by decide)⟩

/-- Witness for claim C4 at a concrete input. -/
theorem c4_witness :
    (execute envUnstructErr (ActionConfig.deployment cfgDepValRG)
        filesEmpty).2 =
      Except.error (JsError.restError (some respW) { error := none }) ∧
    Effect.setFailed "Operation failed" ∈
      (execute envUnstructErr (ActionConfig.deployment cfgDepValRG)
        filesEmpty).1 ∧
    Effect.logError (prettyJson "error-body") ∈
      (execute envUnstructErr (ActionConfig.deployment cfgDepValRG)
        filesEmpty).1 := by
  have h := c4_unhandled_error_propagates envUnstructErr
    (ActionConfig.deployment cfgDepValRG) filesEmpty
    (JsError.restError (some respW) { error := none })
    (by decide) (by decide) (by decide) (fun rc => rfl)
  exact ⟨h.1, h.2.1,
    (h.2.2 respW { error := none } "error-body" rfl rfl (by decide)).2⟩

/-- Counterexample to claim C5 as stated: a stack delete at
subscription scope with no configured location does not fail with the
missing-location precondition — its remote operation is invoked and the
run succeeds. -/
theorem c5_counterexample :
    (remoteCalls (execute envOk
      (ActionConfig.deploymentStack cfgStackDelSubNoLoc) filesEmpty)).length
      = 1 ∧
    (execute envOk (ActionConfig.deploymentStack cfgStackDelSubNoLoc)
      filesEmpty).2 = Except.ok () := by
  constructor <;> decide

/-- Witness for the amended claim C5 at concrete inputs. -/
theorem c5_witness :
    (remoteCalls (execute envOk (ActionConfig.deployment cfgDepValSubNoLoc)
        filesEmpty) = [] ∧
      (execute envOk (ActionConfig.deployment cfgDepValSubNoLoc)
        filesEmpty).2 =
        Except.error (JsError.error "Location is required")) ∧
    (remoteCalls (execute envOk
      (ActionConfig.deploymentStack cfgStackDelSubNoLoc) filesEmpty)).length
      = 1 :=
  ⟨(c5_missing_location_amended envOk
      (ActionConfig.deployment cfgDepValSubNoLoc) filesEmpty (by decide)
      rfl).1 (by decide) (by decide),
    (c5_missing_location_amended envOk
      (ActionConfig.deploymentStack cfgStackDelSubNoLoc) filesEmpty
      (by decide) rfl).2 (Or.inr (by decide))⟩

/-- Witness for claim C6 at a concrete input. -/
theorem c6_witness :
    getScope filesTenantBicep = Except.ok (some ScopeType.tenant) ∧
    validateFileScope (ActionConfig.deployment cfgDepValRG)
        filesTenantBicep =
      Except.error (JsError.error
        "The target scope tenant does not match the deployment scope resourceGroup.") := by
  have h := c6_tenant_schema_scope_mismatch
    (ActionConfig.deployment cfgDepValRG) filesTenantBicep
    (by decide) (by decide) (by decide)
  exact ⟨h.1, h.2.trans (by decide)⟩

/-- Witness for claim C7 at a concrete input. -/
theorem c7_witness :
    getScope filesUnknownBicep = Except.error
      (JsError.error "Failed to determine deployment scope from Bicep file.") :=
  c7_unknown_scope_token_fails filesUnknownBicep "foo" (by decide)
    (by decide) (by decide)

/-- Witness for claim C8 at a concrete input: a template whose schema
declares tenant scope but which lacks generator metadata passes scope
validation even against a resource-group configuration. -/
theorem c8_witness :
    validateFileScope (ActionConfig.deployment cfgDepValRG)
      filesTenantNoGen = Except.ok () :=
  c8_no_generator_skips_validation (ActionConfig.deployment cfgDepValRG)
    filesTenantNoGen (by decide)

/-- Witness for claim C9 at the spec's example input. -/
theorem c9_witness :
    Effect.setOutput "foo" "bar" ∈
      setCreateOutputs (ActionConfig.deployment cfgDepCreateRG)
        (some outW) ∧
    Effect.setSecret "baz" ∈
      setCreateOutputs (ActionConfig.deployment cfgDepCreateRG)
        (some outW) := by
  have h1 := c9_output_projection (ActionConfig.deployment cfgDepCreateRG)
    outW "foo" { value := "bar" } (by decide)
  have h2 := c9_output_projection (ActionConfig.deployment cfgDepCreateRG)
    outW "secretOut" { value := "baz" } (by decide)
  exact ⟨h1.2.1, h2.2.2.1 (by decide)⟩

/-- Witness for claim C10 at a concrete input whose environment does
return outputs. -/
theorem c10_witness :
    (deploymentCreate envOk cfgDepCreateTenant filesEmpty).2 =
      Except.ok none ∧
    Effect.setOutput "foo" "bar" ∉
      (execute envOk (ActionConfig.deployment cfgDepCreateTenant)
        filesEmpty).1 := by
  have h := c10_tenant_create_discards_outputs envOk cfgDepCreateTenant
    filesEmpty "ten-1" rfl rfl
  exact ⟨by decide, h.2 "foo" "bar"⟩

end BicepDeploy
